import Mathlib

/-!
# PorousFlowEnergyTimeDerivative: residual and Jacobian of the energy accumulation term

A shallow embedding of `modules/porous_flow/src/kernels/PorousFlowEnergyTimeDerivative.C`.

* `Real`: the definitions use only the arithmetic operations of the number type `K`, so
  they can be evaluated in any arithmetic. The theorems are stated in exact arithmetic,
  over an arbitrary field `K` (evaluated at `K = ℚ`); `Binary64` is the IEEE 754 `double`
  arithmetic of the code, for evaluating the same definitions on `double` inputs.
* `operator[]` on a container and `operator*` on a pointer are fallible reads: an index
  past the end gives `Fault.outOfRange`, a `NULL` pointer gives `Fault.nullPointer`.
  Operands are read left to right.
* `unsigned` counters are natural numbers: the only arithmetic on them is `++ph` under the
  guard `ph < _num_phases`, which cannot wrap.
* The source divides by `_dt` without a guard, and so do the definitions: there is no
  error branch for `_dt = 0`. The quotient is that of the arithmetic: `0` by convention in
  a field, an infinity or a NaN in `Binary64`.
-/

namespace PorousFlow

/-! ## Faults and fallible reads -/

/-- The two ways a read of the kernel's data can go wrong. -/
inductive Fault where
  | nullPointer
  | outOfRange
deriving DecidableEq, Repr

/-- Read through a pointer, `*p`: a `NULL` pointer is a fault. -/
def deref {α : Type} (p : Option α) : Except Fault α :=
  match p with
  | some a => Except.ok a
  | none => Except.error Fault.nullPointer

/-- Indexing `xs[i]`: an index past the end is a fault. -/
def index {α : Type} (xs : List α) (i : Nat) : Except Fault α :=
  match xs[i]? with
  | some a => Except.ok a
  | none => Except.error Fault.outOfRange

/-- Double indexing `xs[i][j]`. -/
def index2 {α : Type} (xs : List (List α)) (i j : Nat) : Except Fault α := do
  let row ← index xs i
  index row j

/-- Read of a phase field, `(*p)[i][ph]`. -/
def phaseAt {α : Type} (p : Option (List (List α))) (i ph : Nat) : Except Fault α := do
  let m ← deref p
  index2 m i ph

/-- Read of a phase field derivative, `(*p)[i][ph][pvar]`. -/
def dphaseAt {α : Type} (p : Option (List (List (List α)))) (i ph pvar : Nat) :
    Except Fault α := do
  let m ← deref p
  let row ← index2 m i ph
  index row pvar

/-- The loop `for (unsigned ph = lo; ph < lo + count; ++ph) acc = body(ph, acc)`, where the
body may fault. -/
def forLoop {σ : Type} (body : Nat → σ → Except Fault σ) : Nat → Nat → σ → Except Fault σ
  | 0, _, acc => Except.ok acc
  | count + 1, ph, acc => do
    let acc1 ← body ph acc
    forLoop body count (ph + 1) acc1

/-! ## RealGradient -/

/-- The libMesh type `RealGradient` (`VectorValue<Real>`, three components). -/
structure RealGradient (K : Type) where
  x : K
  y : K
  z : K
deriving DecidableEq, Repr

namespace RealGradient

variable {K : Type} [Add K] [Mul K] [Neg K]

/-- Unary minus on a vector, `-v`. -/
def neg (v : RealGradient K) : RealGradient K := ⟨-v.x, -v.y, -v.z⟩

/-- Scalar times vector, `a * v`. -/
def smul (a : K) (v : RealGradient K) : RealGradient K := ⟨a * v.x, a * v.y, a * v.z⟩

/-- Vector times vector, `v * w`: the dot product. -/
def dot (v w : RealGradient K) : K := v.x * w.x + v.y * w.y + v.z * w.z

end RealGradient

/-! ## The kernel object -/

/-- The members of `PorousFlowDictator` that the kernel calls. The dictator is a user
object handed to the kernel; its four members are taken as given. -/
structure PorousFlowDictator where
  isPorousFlowVariable : Nat → Bool
  notPorousFlowVariable : Nat → Bool
  porousFlowVariableNum : Nat → Nat
  numPhases : Nat

/-- A material property: one entry per node of the element. -/
abbrev MaterialProperty (α : Type) := List α

/-- The members the kernel inherits from `TimeKernel` and reads: the number of its own
variable (`_var.number()`), the indices `_i`, `_j`, `_qp`, the time step `_dt`, the test
function values and the trial function gradients. -/
structure TimeKernel (K : Type) where
  _var_number : Nat
  _i : Nat
  _j : Nat
  _qp : Nat
  _dt : K
  _test : List (List K)
  _grad_phi : List (List (RealGradient K))

/-- What `getMaterialProperty` and `getMaterialPropertyOld` hand out for the property names
the constructor asks for (the suffix `_old` marks `getMaterialPropertyOld`). -/
structure MaterialData (K : Type) where
  PorousFlow_porosity_nodal : MaterialProperty K
  PorousFlow_porosity_nodal_old : MaterialProperty K
  dPorousFlow_porosity_nodal_dvar : MaterialProperty (List K)
  dPorousFlow_porosity_nodal_dgradvar : MaterialProperty (List (RealGradient K))
  PorousFlow_matrix_internal_energy_nodal : MaterialProperty K
  PorousFlow_matrix_internal_energy_nodal_old : MaterialProperty K
  dPorousFlow_matrix_internal_energy_nodal_dvar : MaterialProperty (List K)
  PorousFlow_fluid_phase_density : MaterialProperty (List K)
  PorousFlow_fluid_phase_density_old : MaterialProperty (List K)
  dPorousFlow_fluid_phase_density_dvar : MaterialProperty (List (List K))
  PorousFlow_saturation_nodal : MaterialProperty (List K)
  PorousFlow_saturation_nodal_old : MaterialProperty (List K)
  dPorousFlow_saturation_nodal_dvar : MaterialProperty (List (List K))
  PorousFlow_fluid_phase_internal_energy_nodal : MaterialProperty (List K)
  PorousFlow_fluid_phase_internal_energy_nodal_old : MaterialProperty (List K)
  dPorousFlow_fluid_phase_internal_energy_nodal_dvar : MaterialProperty (List (List K))

/-- The data members of `PorousFlowEnergyTimeDerivative`. The nine phase fields are
pointers, `NULL` when there is no fluid phase. -/
structure PorousFlowEnergyTimeDerivative (K : Type) extends TimeKernel K where
  _dictator : PorousFlowDictator
  _var_is_porflow_var : Bool
  _num_phases : Nat
  _fluid_present : Bool
  _porosity : MaterialProperty K
  _porosity_old : MaterialProperty K
  _dporosity_dvar : MaterialProperty (List K)
  _dporosity_dgradvar : MaterialProperty (List (RealGradient K))
  _rock_energy_nodal : MaterialProperty K
  _rock_energy_nodal_old : MaterialProperty K
  _drock_energy_nodal_dvar : MaterialProperty (List K)
  _fluid_density : Option (MaterialProperty (List K))
  _fluid_density_old : Option (MaterialProperty (List K))
  _dfluid_density_dvar : Option (MaterialProperty (List (List K)))
  _fluid_saturation_nodal : Option (MaterialProperty (List K))
  _fluid_saturation_nodal_old : Option (MaterialProperty (List K))
  _dfluid_saturation_nodal_dvar : Option (MaterialProperty (List (List K)))
  _energy_nodal : Option (MaterialProperty (List K))
  _energy_nodal_old : Option (MaterialProperty (List K))
  _denergy_nodal_dvar : Option (MaterialProperty (List (List K)))

namespace PorousFlowEnergyTimeDerivative

variable {K : Type} [Zero K] [One K] [Add K] [Sub K] [Mul K] [Neg K] [Div K]

/-- The constructor: the member initialiser list of
`PorousFlowEnergyTimeDerivative::PorousFlowEnergyTimeDerivative`. -/
def construct (base : TimeKernel K) (dictator : PorousFlowDictator) (mp : MaterialData K) :
    PorousFlowEnergyTimeDerivative K :=
  let var_is_porflow_var := dictator.isPorousFlowVariable base._var_number
  let num_phases := dictator.numPhases
  let fluid_present : Bool := decide (num_phases > 0)
  { toTimeKernel := base
    _dictator := dictator
    _var_is_porflow_var := var_is_porflow_var
    _num_phases := num_phases
    _fluid_present := fluid_present
    _porosity := mp.PorousFlow_porosity_nodal
    _porosity_old := mp.PorousFlow_porosity_nodal_old
    _dporosity_dvar := mp.dPorousFlow_porosity_nodal_dvar
    _dporosity_dgradvar := mp.dPorousFlow_porosity_nodal_dgradvar
    _rock_energy_nodal := mp.PorousFlow_matrix_internal_energy_nodal
    _rock_energy_nodal_old := mp.PorousFlow_matrix_internal_energy_nodal_old
    _drock_energy_nodal_dvar := mp.dPorousFlow_matrix_internal_energy_nodal_dvar
    _fluid_density :=
      if fluid_present then some mp.PorousFlow_fluid_phase_density else none
    _fluid_density_old :=
      if fluid_present then some mp.PorousFlow_fluid_phase_density_old else none
    _dfluid_density_dvar :=
      if fluid_present then some mp.dPorousFlow_fluid_phase_density_dvar else none
    _fluid_saturation_nodal :=
      if fluid_present then some mp.PorousFlow_saturation_nodal else none
    _fluid_saturation_nodal_old :=
      if fluid_present then some mp.PorousFlow_saturation_nodal_old else none
    _dfluid_saturation_nodal_dvar :=
      if fluid_present then some mp.dPorousFlow_saturation_nodal_dvar else none
    _energy_nodal :=
      if fluid_present then some mp.PorousFlow_fluid_phase_internal_energy_nodal else none
    _energy_nodal_old :=
      if fluid_present then some mp.PorousFlow_fluid_phase_internal_energy_nodal_old
      else none
    _denergy_nodal_dvar :=
      if fluid_present then some mp.dPorousFlow_fluid_phase_internal_energy_nodal_dvar
      else none }

/-- The body of the phase loop of `computeQpResidual` (source lines 51-52), acting on the
pair of locals `(energy, energy_old)`. -/
def residualPhase (k : PorousFlowEnergyTimeDerivative K) (ph : Nat) (acc : K × K) :
    Except Fault (K × K) := do
  let density ← phaseAt k._fluid_density k._i ph
  let saturation ← phaseAt k._fluid_saturation_nodal k._i ph
  let energy_ph ← phaseAt k._energy_nodal k._i ph
  let porosity ← index k._porosity k._i
  let energy := acc.1 + density * saturation * energy_ph * porosity
  let density_old ← phaseAt k._fluid_density_old k._i ph
  let saturation_old ← phaseAt k._fluid_saturation_nodal_old k._i ph
  let energy_ph_old ← phaseAt k._energy_nodal_old k._i ph
  let porosity_old ← index k._porosity_old k._i
  let energy_old := acc.2 + density_old * saturation_old * energy_ph_old * porosity_old
  pure (energy, energy_old)

/-- The method `PorousFlowEnergyTimeDerivative::computeQpResidual`. -/
def computeQpResidual (k : PorousFlowEnergyTimeDerivative K) : Except Fault K := do
  let porosity ← index k._porosity k._i
  let rock_energy ← index k._rock_energy_nodal k._i
  let energy := (1 - porosity) * rock_energy
  let porosity_old ← index k._porosity_old k._i
  let rock_energy_old ← index k._rock_energy_nodal_old k._i
  let energy_old := (1 - porosity_old) * rock_energy_old
  let acc ← forLoop (residualPhase k) k._num_phases 0 (energy, energy_old)
  let test ← index2 k._test k._i k._qp
  pure (test * (acc.1 - acc.2) / k._dt)

/-- The body of the first phase loop of `computeQpJac` (source line 84). -/
def jacGradPhase (k : PorousFlowEnergyTimeDerivative K) (pvar ph : Nat) (denergy : K) :
    Except Fault K := do
  let density ← phaseAt k._fluid_density k._i ph
  let saturation ← phaseAt k._fluid_saturation_nodal k._i ph
  let energy_ph ← phaseAt k._energy_nodal k._i ph
  let dporosity_dgradvar ← index2 k._dporosity_dgradvar k._i pvar
  let grad_phi ← index2 k._grad_phi k._j k._i
  pure (denergy +
    (RealGradient.smul (density * saturation * energy_ph) dporosity_dgradvar).dot grad_phi)

/-- The body of the second phase loop of `computeQpJac` (source lines 94-97). -/
def jacNodePhase (k : PorousFlowEnergyTimeDerivative K) (pvar ph : Nat) (denergy : K) :
    Except Fault K := do
  let ddensity ← dphaseAt k._dfluid_density_dvar k._i ph pvar
  let saturation ← phaseAt k._fluid_saturation_nodal k._i ph
  let energy_ph ← phaseAt k._energy_nodal k._i ph
  let porosity ← index k._porosity k._i
  let denergy1 := denergy + ddensity * saturation * energy_ph * porosity
  let density ← phaseAt k._fluid_density k._i ph
  let dsaturation ← dphaseAt k._dfluid_saturation_nodal_dvar k._i ph pvar
  let denergy2 := denergy1 + density * dsaturation * energy_ph * porosity
  let denergy_ph ← dphaseAt k._denergy_nodal_dvar k._i ph pvar
  let denergy3 := denergy2 + density * saturation * denergy_ph * porosity
  let dporosity ← index2 k._dporosity_dvar k._i pvar
  let denergy4 := denergy3 + density * saturation * energy_ph * dporosity
  pure denergy4

/-- The method `PorousFlowEnergyTimeDerivative::computeQpJac`. -/
def computeQpJac (k : PorousFlowEnergyTimeDerivative K) (pvar : Nat) : Except Fault K := do
  let dporosity_dgradvar ← index2 k._dporosity_dgradvar k._i pvar
  let grad_phi ← index2 k._grad_phi k._j k._i
  let rock_energy ← index k._rock_energy_nodal k._i
  let denergy0 := (RealGradient.neg dporosity_dgradvar).dot grad_phi * rock_energy
  let denergy1 ← forLoop (jacGradPhase k pvar) k._num_phases 0 denergy0
  if k._i ≠ k._j then
    let test ← index2 k._test k._i k._qp
    pure (test * denergy1 / k._dt)
  else
    let dporosity ← index2 k._dporosity_dvar k._i pvar
    let rock_energy_i ← index k._rock_energy_nodal k._i
    let denergy2 := denergy1 + -dporosity * rock_energy_i
    let porosity ← index k._porosity k._i
    let drock_energy ← index2 k._drock_energy_nodal_dvar k._i pvar
    let denergy3 := denergy2 + (1 - porosity) * drock_energy
    let denergy4 ← forLoop (jacNodePhase k pvar) k._num_phases 0 denergy3
    let test ← index2 k._test k._i k._qp
    pure (test * denergy4 / k._dt)

/-- The method `PorousFlowEnergyTimeDerivative::computeQpJacobian`. -/
def computeQpJacobian (k : PorousFlowEnergyTimeDerivative K) : Except Fault K :=
  if !k._var_is_porflow_var then
    pure 0
  else
    computeQpJac k (k._dictator.porousFlowVariableNum k._var_number)

/-- The method `PorousFlowEnergyTimeDerivative::computeQpOffDiagJacobian`. -/
def computeQpOffDiagJacobian (k : PorousFlowEnergyTimeDerivative K) (jvar : Nat) :
    Except Fault K :=
  if k._dictator.notPorousFlowVariable jvar then
    pure 0
  else
    computeQpJac k (k._dictator.porousFlowVariableNum jvar)

end PorousFlowEnergyTimeDerivative

/-! ## Auxiliary definitions for the statements -/

/-- A fallible computation returns a value: it reaches no error branch. -/
def Returns {α : Type} (r : Except Fault α) : Prop := ∃ a, r = Except.ok a

/-- Replace the nine phase pointers of a kernel by pointers to present containers. -/
def withPhaseData {K : Type} (k : PorousFlowEnergyTimeDerivative K)
    (density density_old saturation saturation_old energy energy_old :
      MaterialProperty (List K))
    (ddensity dsaturation denergy : MaterialProperty (List (List K))) :
    PorousFlowEnergyTimeDerivative K :=
  { k with
    _fluid_density := some density
    _fluid_density_old := some density_old
    _dfluid_density_dvar := some ddensity
    _fluid_saturation_nodal := some saturation
    _fluid_saturation_nodal_old := some saturation_old
    _dfluid_saturation_nodal_dvar := some dsaturation
    _energy_nodal := some energy
    _energy_nodal_old := some energy_old
    _denergy_nodal_dvar := some denergy }

/-! ## Sample inputs

Two nodes, two fluid phases, two coupled unknowns; the kernel sits at node `_i = 1`. -/

section Samples

variable (K : Type) [Field K]

/-- A dictator with two PorousFlow variables (numbers `0` and `1`) and two phases. -/
def sampleDictator : PorousFlowDictator :=
  { isPorousFlowVariable := fun v => decide (v < 2)
    notPorousFlowVariable := fun v => decide (2 ≤ v)
    porousFlowVariableNum := fun v => v
    numPhases := 2 }

/-- The same dictator without fluid phases. -/
def sampleDictatorNoFluid : PorousFlowDictator :=
  { sampleDictator with numPhases := 0 }

/-- An element context on the diagonal, `_i = _j = 1`. -/
def sampleBase : TimeKernel K :=
  { _var_number := 1
    _i := 1
    _j := 1
    _qp := 0
    _dt := 2
    _test := [[1], [3]]
    _grad_phi := [[⟨1, 0, 0⟩, ⟨0, 1, 0⟩], [⟨1, 1, 1⟩, ⟨2, 0, 1⟩]] }

/-- The same element context off the diagonal, `_i = 1`, `_j = 0`. -/
def sampleBaseOff : TimeKernel K :=
  { sampleBase K with _j := 0 }

/-- Material properties for two nodes, two phases and two coupled unknowns. -/
def sampleMaterials : MaterialData K :=
  { PorousFlow_porosity_nodal := [1 / 2, 1 / 4]
    PorousFlow_porosity_nodal_old := [1 / 2, 1 / 2]
    dPorousFlow_porosity_nodal_dvar := [[0, 0], [1, 2]]
    dPorousFlow_porosity_nodal_dgradvar := [[⟨0, 0, 0⟩, ⟨0, 0, 0⟩], [⟨1, 0, 0⟩, ⟨0, 1, 2⟩]]
    PorousFlow_matrix_internal_energy_nodal := [7, 8]
    PorousFlow_matrix_internal_energy_nodal_old := [7, 4]
    dPorousFlow_matrix_internal_energy_nodal_dvar := [[0, 0], [3, 5]]
    PorousFlow_fluid_phase_density := [[1, 1], [2, 3]]
    PorousFlow_fluid_phase_density_old := [[1, 1], [2, 3]]
    dPorousFlow_fluid_phase_density_dvar := [[[0, 0], [0, 0]], [[1, 2], [3, 4]]]
    PorousFlow_saturation_nodal := [[1, 0], [1 / 2, 1 / 2]]
    PorousFlow_saturation_nodal_old := [[1, 0], [1 / 2, 1 / 2]]
    dPorousFlow_saturation_nodal_dvar := [[[0, 0], [0, 0]], [[0, 1], [1, 0]]]
    PorousFlow_fluid_phase_internal_energy_nodal := [[1, 1], [4, 6]]
    PorousFlow_fluid_phase_internal_energy_nodal_old := [[1, 1], [2, 4]]
    dPorousFlow_fluid_phase_internal_energy_nodal_dvar :=
      [[[0, 0], [0, 0]], [[2, 1], [1, 2]]] }

/-- Material properties whose containers are all empty: every read of them faults. -/
def emptyMaterials : MaterialData K :=
  { PorousFlow_porosity_nodal := []
    PorousFlow_porosity_nodal_old := []
    dPorousFlow_porosity_nodal_dvar := []
    dPorousFlow_porosity_nodal_dgradvar := []
    PorousFlow_matrix_internal_energy_nodal := []
    PorousFlow_matrix_internal_energy_nodal_old := []
    dPorousFlow_matrix_internal_energy_nodal_dvar := []
    PorousFlow_fluid_phase_density := []
    PorousFlow_fluid_phase_density_old := []
    dPorousFlow_fluid_phase_density_dvar := []
    PorousFlow_saturation_nodal := []
    PorousFlow_saturation_nodal_old := []
    dPorousFlow_saturation_nodal_dvar := []
    PorousFlow_fluid_phase_internal_energy_nodal := []
    PorousFlow_fluid_phase_internal_energy_nodal_old := []
    dPorousFlow_fluid_phase_internal_energy_nodal_dvar := [] }

/-- The kernel the constructor builds from the sample inputs (diagonal pair). -/
def sampleKernel : PorousFlowEnergyTimeDerivative K :=
  PorousFlowEnergyTimeDerivative.construct (sampleBase K) sampleDictator (sampleMaterials K)

/-- The kernel the constructor builds from the sample inputs (off-diagonal pair). -/
def sampleKernelOff : PorousFlowEnergyTimeDerivative K :=
  PorousFlowEnergyTimeDerivative.construct (sampleBaseOff K) sampleDictator
    (sampleMaterials K)

/-- The kernel the constructor builds when the dictator reports no fluid phase. -/
def sampleKernelNoFluid : PorousFlowEnergyTimeDerivative K :=
  PorousFlowEnergyTimeDerivative.construct (sampleBase K) sampleDictatorNoFluid
    (sampleMaterials K)

/-- A kernel over empty containers. -/
def emptyKernel : PorousFlowEnergyTimeDerivative K :=
  PorousFlowEnergyTimeDerivative.construct (sampleBase K) sampleDictator (emptyMaterials K)

end Samples

/-- The sample kernel with its current fields at node `1` moved along the line through the
sample values with the slopes stored for `pvar = 1`. -/
def sampleFamily (x : ℚ) : PorousFlowEnergyTimeDerivative ℚ :=
  { sampleKernel ℚ with
    _porosity := [1 / 2, 1 / 4 + 4 * (x - 1)]
    _rock_energy_nodal := [7, 8 + 5 * (x - 1)]
    _fluid_density := some [[1, 1], [2 + 2 * (x - 1), 3 + 4 * (x - 1)]]
    _fluid_saturation_nodal := some [[1, 0], [1 / 2 + 1 * (x - 1), 1 / 2 + 0 * (x - 1)]]
    _energy_nodal := some [[1, 1], [4 + 1 * (x - 1), 6 + 2 * (x - 1)]] }

/-! ## The scenarios of the specification

One node, `_i = _j = _qp = 0`, test function value `1`. -/

/-- A dictator for the scenarios: every variable is a PorousFlow variable, `N` phases. -/
def scenarioDictator (N : Nat) : PorousFlowDictator :=
  { isPorousFlowVariable := fun _ => true
    notPorousFlowVariable := fun _ => false
    porousFlowVariableNum := fun v => v
    numPhases := N }

/-- The element context of the scenarios, with time step `dt`. -/
def scenarioBase (dt : ℚ) : TimeKernel ℚ :=
  { _var_number := 0
    _i := 0
    _j := 0
    _qp := 0
    _dt := dt
    _test := [[1]]
    _grad_phi := [[⟨0, 0, 0⟩]] }

/-- Material properties of a scenario without fluid: only porosity and rock energy. -/
def scenarioRockMaterials (φ φ_old e_rock e_rock_old : ℚ) : MaterialData ℚ :=
  { PorousFlow_porosity_nodal := [φ]
    PorousFlow_porosity_nodal_old := [φ_old]
    dPorousFlow_porosity_nodal_dvar := [[0]]
    dPorousFlow_porosity_nodal_dgradvar := [[⟨0, 0, 0⟩]]
    PorousFlow_matrix_internal_energy_nodal := [e_rock]
    PorousFlow_matrix_internal_energy_nodal_old := [e_rock_old]
    dPorousFlow_matrix_internal_energy_nodal_dvar := [[0]]
    PorousFlow_fluid_phase_density := []
    PorousFlow_fluid_phase_density_old := []
    dPorousFlow_fluid_phase_density_dvar := []
    PorousFlow_saturation_nodal := []
    PorousFlow_saturation_nodal_old := []
    dPorousFlow_saturation_nodal_dvar := []
    PorousFlow_fluid_phase_internal_energy_nodal := []
    PorousFlow_fluid_phase_internal_energy_nodal_old := []
    dPorousFlow_fluid_phase_internal_energy_nodal_dvar := [] }

/-- Scenario A: `φ = φ_old = 0.2`, `e_rock = e_rock_old = 5.0`, `N = 0`, `dt = 1.0`. -/
def scenarioA : PorousFlowEnergyTimeDerivative ℚ :=
  PorousFlowEnergyTimeDerivative.construct (scenarioBase 1) (scenarioDictator 0)
    (scenarioRockMaterials 0.2 0.2 5 5)

/-- Scenario B: as scenario A with `e_rock = 6.0`. -/
def scenarioB : PorousFlowEnergyTimeDerivative ℚ :=
  PorousFlowEnergyTimeDerivative.construct (scenarioBase 1) (scenarioDictator 0)
    (scenarioRockMaterials 0.2 0.2 6 5)

/-- Scenario C: one phase, `φ = φ_old = 0.3`, `e_rock = e_rock_old = 0`, `ρ = ρ_old = 1000`,
`s = s_old = 0.5`, `u = 2000`, `u_old = 1800`, `dt = 2.0`. -/
def scenarioC : PorousFlowEnergyTimeDerivative ℚ :=
  PorousFlowEnergyTimeDerivative.construct (scenarioBase 2) (scenarioDictator 1)
    { scenarioRockMaterials 0.3 0.3 0 0 with
      PorousFlow_fluid_phase_density := [[1000]]
      PorousFlow_fluid_phase_density_old := [[1000]]
      dPorousFlow_fluid_phase_density_dvar := [[[0]]]
      PorousFlow_saturation_nodal := [[0.5]]
      PorousFlow_saturation_nodal_old := [[0.5]]
      dPorousFlow_saturation_nodal_dvar := [[[0]]]
      PorousFlow_fluid_phase_internal_energy_nodal := [[2000]]
      PorousFlow_fluid_phase_internal_energy_nodal_old := [[1800]]
      dPorousFlow_fluid_phase_internal_energy_nodal_dvar := [[[0]]] }

/-- The sample kernel with the time step set to `0`. -/
def sampleKernelZeroDt : PorousFlowEnergyTimeDerivative ℚ :=
  { sampleKernel ℚ with _dt := 0 }

/-- The sample kernel moved to node `0`, where every stored derivative is zero. -/
def sampleKernelNode0 : PorousFlowEnergyTimeDerivative ℚ :=
  { sampleKernel ℚ with _i := 0, _j := 0 }

/-! ## In-range inputs -/

/-- The row of a node-indexed container at node `i` exists and has exactly `n` entries. -/
def HasRow {α : Type} (xs : List (List α)) (i n : Nat) : Prop :=
  ∃ row, xs[i]? = some row ∧ row.length = n

/-- The row at node `i` exists and has exactly `n` entries, each of them a vector of
exactly `m` entries. -/
def HasRows {α : Type} (xs : List (List (List α))) (i n m : Nat) : Prop :=
  ∃ row, xs[i]? = some row ∧ row.length = n ∧ ∀ r, r ∈ row → r.length = m

/-- The preconditions on the inputs of the kernel, for `N` phases and `P` coupled unknowns:
the test function value at `_i` and the trial function gradient for `(_j, _i)` are
supplied, `_i` is within every node-indexed container, every phase-indexed vector at node
`_i` has exactly `N` entries and every derivative vector has exactly `P` entries. -/
structure InRange {K : Type} (base : TimeKernel K) (mp : MaterialData K) (N P : Nat) :
    Prop where
  test : ∃ row, base._test[base._i]? = some row ∧ base._qp < row.length
  grad_phi : ∃ row, base._grad_phi[base._j]? = some row ∧ base._i < row.length
  porosity : base._i < mp.PorousFlow_porosity_nodal.length
  porosity_old : base._i < mp.PorousFlow_porosity_nodal_old.length
  dporosity_dvar : HasRow mp.dPorousFlow_porosity_nodal_dvar base._i P
  dporosity_dgradvar : HasRow mp.dPorousFlow_porosity_nodal_dgradvar base._i P
  rock_energy : base._i < mp.PorousFlow_matrix_internal_energy_nodal.length
  rock_energy_old : base._i < mp.PorousFlow_matrix_internal_energy_nodal_old.length
  drock_energy : HasRow mp.dPorousFlow_matrix_internal_energy_nodal_dvar base._i P
  density : HasRow mp.PorousFlow_fluid_phase_density base._i N
  density_old : HasRow mp.PorousFlow_fluid_phase_density_old base._i N
  ddensity : HasRows mp.dPorousFlow_fluid_phase_density_dvar base._i N P
  saturation : HasRow mp.PorousFlow_saturation_nodal base._i N
  saturation_old : HasRow mp.PorousFlow_saturation_nodal_old base._i N
  dsaturation : HasRows mp.dPorousFlow_saturation_nodal_dvar base._i N P
  energy : HasRow mp.PorousFlow_fluid_phase_internal_energy_nodal base._i N
  energy_old : HasRow mp.PorousFlow_fluid_phase_internal_energy_nodal_old base._i N
  denergy : HasRows mp.dPorousFlow_fluid_phase_internal_energy_nodal_dvar base._i N P

/-! ## Permuted phases -/

/-- Extend per-phase values given on `Fin N` to all natural numbers by `0`. -/
def ofFin {K : Type} [Zero K] {N : Nat} (f : Fin N → K) (p : Nat) : K :=
  if h : p < N then f ⟨p, h⟩ else 0

/-- The permutation that swaps the two phases of the sample kernel. -/
def sampleSwap : Equiv.Perm (Fin 2) := Equiv.swap 0 1

/-- The sample kernel with its two phases swapped in every phase-indexed container. -/
def sampleKernelSwapped : PorousFlowEnergyTimeDerivative ℚ :=
  { sampleKernel ℚ with
    _fluid_density := some [[1, 1], [3, 2]]
    _fluid_density_old := some [[1, 1], [3, 2]]
    _dfluid_density_dvar := some [[[0, 0], [0, 0]], [[3, 4], [1, 2]]]
    _fluid_saturation_nodal := some [[0, 1], [1 / 2, 1 / 2]]
    _fluid_saturation_nodal_old := some [[0, 1], [1 / 2, 1 / 2]]
    _dfluid_saturation_nodal_dvar := some [[[0, 0], [0, 0]], [[1, 0], [0, 1]]]
    _energy_nodal := some [[1, 1], [6, 4]]
    _energy_nodal_old := some [[1, 1], [4, 2]]
    _denergy_nodal_dvar := some [[[0, 0], [0, 0]], [[1, 2], [2, 1]]] }

/-! ## IEEE 754 binary64 arithmetic -/

/-- The number of binary digits of `n`, by halving at most `fuel` times. -/
def bitLengthAux : Nat → Nat → Nat
  | 0, _ => 0
  | fuel + 1, n => if n = 0 then 0 else bitLengthAux fuel (n / 2) + 1

/-- The number of binary digits of `n` (`0` for `n = 0`). -/
def bitLength (n : Nat) : Nat := bitLengthAux n n

/-- A `double`: a finite value `(-1)^neg * m * 2^e`, an infinity or a NaN. A finite value
is kept in the form of its encoding: `m < 2^53`, `-1074 ≤ e ≤ 971`, and `2^52 ≤ m` unless
`e = -1074` (zero and the subnormal values). -/
inductive Binary64 where
  | finite (neg : Bool) (m : Nat) (e : Int)
  | inf (neg : Bool)
  | nan
deriving DecidableEq, Repr

namespace Binary64

/-- The zero of sign `neg`. -/
def zero (neg : Bool) : Binary64 := finite neg 0 (-1074)

/-- Round `(-1)^neg * (M + δ) * 2^E` to the nearest `double`, ties to even, where
`0 < δ < 1` if `sticky` and `δ = 0` otherwise; a sticky `M` has at least 55 digits. A
result beyond the largest finite value is an infinity. -/
def roundPack (neg : Bool) (M : Nat) (E : Int) (sticky : Bool) : Binary64 :=
  if M = 0 then zero neg
  else
    let e1 : Int := max (E + (bitLength M : Int) - 53) (-1074)
    if e1 ≤ E then
      if e1 > 971 then inf neg else finite neg (M * 2 ^ (E - e1).toNat) e1
    else
      let s : Nat := (e1 - E).toNat
      let q : Nat := M / 2 ^ s
      let r : Nat := M % 2 ^ s
      let half : Nat := 2 ^ (s - 1)
      let up : Bool := decide (r > half) || (decide (r = half) && (sticky || q % 2 == 1))
      let m : Nat := if up then q + 1 else q
      let m1 : Nat := if m = 2 ^ 53 then 2 ^ 52 else m
      let e2 : Int := if m = 2 ^ 53 then e1 + 1 else e1
      if e2 > 971 then inf neg else finite neg m1 e2

/-- The `double` nearest to `(-1)^neg * (a / b) * 2^E`, for `b ≠ 0`. -/
def roundQuotient (neg : Bool) (a b : Nat) (E : Int) : Binary64 :=
  let k : Nat := bitLength b + 55
  roundPack neg (a * 2 ^ k / b) (E - k) (decide (a * 2 ^ k % b ≠ 0))

/-- The `double` a decimal literal with the value `num / den` denotes. -/
def ofFrac (num den : Nat) : Binary64 := roundQuotient false num den 0

/-- Unary minus. -/
def neg : Binary64 → Binary64
  | finite s m e => finite (!s) m e
  | inf s => inf (!s)
  | nan => nan

/-- Addition, rounded to nearest, ties to even. A zero operand leaves the other operand as
it is; two zeros give a zero that is negative only if both are. -/
def add : Binary64 → Binary64 → Binary64
  | nan, _ => nan
  | _, nan => nan
  | inf s, inf t => if s = t then inf s else nan
  | inf s, finite _ _ _ => inf s
  | finite _ _ _, inf t => inf t
  | finite s m e, finite t n f =>
    if m = 0 then (if n = 0 then zero (s && t) else finite t n f)
    else if n = 0 then finite s m e
    else
      let E : Int := min e f
      let a : Int := (m * 2 ^ (e - E).toNat : Nat)
      let b : Int := (n * 2 ^ (f - E).toNat : Nat)
      let sum : Int := (if s then -a else a) + (if t then -b else b)
      if sum = 0 then zero false else roundPack (decide (sum < 0)) sum.natAbs E false

/-- Multiplication, rounded to nearest, ties to even. -/
def mul : Binary64 → Binary64 → Binary64
  | nan, _ => nan
  | _, nan => nan
  | inf s, inf t => inf (xor s t)
  | inf s, finite t n _ => if n = 0 then nan else inf (xor s t)
  | finite s m _, inf t => if m = 0 then nan else inf (xor s t)
  | finite s m e, finite t n f => roundPack (xor s t) (m * n) (e + f) false

/-- Division, rounded to nearest, ties to even. -/
def div : Binary64 → Binary64 → Binary64
  | nan, _ => nan
  | _, nan => nan
  | inf _, inf _ => nan
  | inf s, finite t _ _ => inf (xor s t)
  | finite s _ _, inf t => zero (xor s t)
  | finite s m e, finite t n f =>
    if n = 0 then (if m = 0 then nan else inf (xor s t))
    else roundQuotient (xor s t) m n (e - f)

instance : Zero Binary64 := ⟨zero false⟩
instance : One Binary64 := ⟨finite false (2 ^ 52) (-52)⟩
instance : Neg Binary64 := ⟨neg⟩
instance : Add Binary64 := ⟨add⟩
instance : Sub Binary64 := ⟨fun a b => add a (neg b)⟩
instance : Mul Binary64 := ⟨mul⟩
instance : Div Binary64 := ⟨div⟩

end Binary64

/-! ## Inputs in `double` arithmetic -/

/-- A dictator with one PorousFlow variable and one phase. -/
def doubleDictator : PorousFlowDictator :=
  { isPorousFlowVariable := fun v => decide (v = 0)
    notPorousFlowVariable := fun v => decide (v ≠ 0)
    porousFlowVariableNum := fun v => v
    numPhases := 1 }

/-- An off-diagonal element context in `double` arithmetic: `_i = 0`, `_j = 1`,
`_dt = 1.0`, test function value `1.0` and `_grad_phi[1][0] = (0.3, -0.1, 0)`. -/
def doubleBase : TimeKernel Binary64 :=
  { _var_number := 0
    _i := 0
    _j := 1
    _qp := 0
    _dt := 1
    _test := [[1]]
    _grad_phi := [[⟨0, 0, 0⟩], [⟨Binary64.ofFrac 3 10, -Binary64.ofFrac 1 10, 0⟩]] }

/-- The same element context with the time step set to `0.0`. -/
def doubleBaseZeroDt : TimeKernel Binary64 :=
  { doubleBase with _dt := 0 }

/-- Material properties in `double` arithmetic for one node, one phase and one coupled
unknown: `_dporosity_dgradvar[0][0] = (0.1, 0.3, 0)`, `ρ = 3`, `s = u = 1`,
`e_rock = 5`, `φ = 0.25`. -/
def doubleMaterials : MaterialData Binary64 :=
  { PorousFlow_porosity_nodal := [Binary64.ofFrac 1 4]
    PorousFlow_porosity_nodal_old := [Binary64.ofFrac 1 4]
    dPorousFlow_porosity_nodal_dvar := [[0]]
    dPorousFlow_porosity_nodal_dgradvar := [[⟨Binary64.ofFrac 1 10, Binary64.ofFrac 3 10, 0⟩]]
    PorousFlow_matrix_internal_energy_nodal := [Binary64.ofFrac 5 1]
    PorousFlow_matrix_internal_energy_nodal_old := [Binary64.ofFrac 5 1]
    dPorousFlow_matrix_internal_energy_nodal_dvar := [[0]]
    PorousFlow_fluid_phase_density := [[Binary64.ofFrac 3 1]]
    PorousFlow_fluid_phase_density_old := [[Binary64.ofFrac 3 1]]
    dPorousFlow_fluid_phase_density_dvar := [[[0]]]
    PorousFlow_saturation_nodal := [[1]]
    PorousFlow_saturation_nodal_old := [[1]]
    dPorousFlow_saturation_nodal_dvar := [[[0]]]
    PorousFlow_fluid_phase_internal_energy_nodal := [[1]]
    PorousFlow_fluid_phase_internal_energy_nodal_old := [[1]]
    dPorousFlow_fluid_phase_internal_energy_nodal_dvar := [[[0]]] }

/-- The kernel the constructor builds from the `double` inputs. -/
def doubleKernel : PorousFlowEnergyTimeDerivative Binary64 :=
  PorousFlowEnergyTimeDerivative.construct doubleBase doubleDictator doubleMaterials

/-! ## Lemmas on the fallible reads and on the loop -/

section Reads

variable {α β : Type}

@[simp]
theorem ok_bind (a : α) (f : α → Except Fault β) : (Except.ok a >>= f) = f a := rfl

@[simp]
theorem error_bind (e : Fault) (f : α → Except Fault β) :
    ((Except.error e : Except Fault α) >>= f) = Except.error e := rfl

@[simp]
theorem pure_eq_ok (a : α) : (pure a : Except Fault α) = Except.ok a := rfl

@[simp]
theorem map_ok (f : α → β) (a : α) :
    (f <$> (Except.ok a : Except Fault α)) = Except.ok (f a) := rfl

end Reads

section Loop

variable {σ : Type} [AddCommMonoid σ]

/-- A loop whose body never faults and adds `f ph` to the accumulator computes a sum
(general lower bound). -/
theorem forLoop_sum_from (body : Nat → σ → Except Fault σ) (f : Nat → σ) :
    ∀ (n lo : Nat) (acc : σ),
      (∀ ph, lo ≤ ph → ph < lo + n → ∀ a, body ph a = Except.ok (a + f ph)) →
      forLoop body n lo acc = Except.ok (acc + ∑ p ∈ Finset.range n, f (lo + p)) := by
  intro n
  induction n with
  | zero => intro lo acc _; simp [forLoop]
  | succ n ih =>
    intro lo acc h
    have h0 : body lo acc = Except.ok (acc + f lo) := h lo (le_refl lo) (by omega) acc
    have hrest : ∀ ph, lo + 1 ≤ ph → ph < lo + 1 + n → ∀ a, body ph a = Except.ok (a + f ph) :=
      fun ph h1 h2 a => h ph (by omega) (by omega) a
    simp only [forLoop, h0, ok_bind]
    rw [ih (lo + 1) (acc + f lo) hrest, Finset.sum_range_succ']
    congr 1
    have hidx : ∀ p : Nat, lo + 1 + p = lo + (p + 1) := fun p => by omega
    simp only [hidx, Nat.add_zero]
    rw [add_assoc, add_comm (f lo)]

/-- A loop from `0` whose body never faults and adds `f ph` computes `acc + Σ f`. -/
theorem forLoop_sum (body : Nat → σ → Except Fault σ) (f : Nat → σ) (n : Nat) (acc : σ)
    (h : ∀ ph, ph < n → ∀ a, body ph a = Except.ok (a + f ph)) :
    forLoop body n 0 acc = Except.ok (acc + ∑ p ∈ Finset.range n, f p) := by
  have := forLoop_sum_from body f n 0 acc (fun ph _ h2 a => h ph (by omega) a)
  simpa using this

end Loop

namespace RealGradient

variable {K : Type} [Field K]

theorem neg_dot (v w : RealGradient K) : (neg v).dot w = -(v.dot w) := by
  simp only [neg, dot]; ring

theorem smul_dot (a : K) (v w : RealGradient K) : (smul a v).dot w = a * v.dot w := by
  simp only [smul, dot]; ring

end RealGradient

section Derivative

variable {𝕜 : Type} [NontriviallyNormedField 𝕜]

/-- An affine function of `x` has its slope as derivative. -/
theorem affine_hasDerivAt (c m x0 : 𝕜) : HasDerivAt (fun x => c + m * (x - x0)) m x0 := by
  have h := (((hasDerivAt_id x0).sub_const x0).const_mul m).const_add c
  simpa using h

/-- The derivative of the stored energy `(1 - φ) * e + Σ φ * ρ * s * u` along affine
fields, at the base point. -/
theorem energy_hasDerivAt (N : Nat) (x0 φ e φ1 e1 : 𝕜) (ρ s u ρ1 s1 u1 : Nat → 𝕜) :
    HasDerivAt
      (fun x => (1 - (φ + φ1 * (x - x0))) * (e + e1 * (x - x0)) +
        ∑ p ∈ Finset.range N, (φ + φ1 * (x - x0)) * (ρ p + ρ1 p * (x - x0)) *
          (s p + s1 p * (x - x0)) * (u p + u1 p * (x - x0)))
      (-φ1 * e + (1 - φ) * e1 +
        ∑ p ∈ Finset.range N, (ρ1 p * s p * u p * φ + ρ p * s1 p * u p * φ +
          ρ p * s p * u1 p * φ + ρ p * s p * u p * φ1)) x0 := by
  have hφ := affine_hasDerivAt φ φ1 x0
  have he := affine_hasDerivAt e e1 x0
  have hterm : ∀ p ∈ Finset.range N, HasDerivAt
      (fun x => (φ + φ1 * (x - x0)) * (ρ p + ρ1 p * (x - x0)) *
          (s p + s1 p * (x - x0)) * (u p + u1 p * (x - x0)))
      (ρ1 p * s p * u p * φ + ρ p * s1 p * u p * φ +
          ρ p * s p * u1 p * φ + ρ p * s p * u p * φ1) x0 := by
    intro p _
    have h := ((hφ.mul (affine_hasDerivAt (ρ p) (ρ1 p) x0)).mul
      (affine_hasDerivAt (s p) (s1 p) x0)).mul (affine_hasDerivAt (u p) (u1 p) x0)
    convert h using 1
    simp only [sub_self, mul_zero, add_zero]
    ring
  have hrock := ((hasDerivAt_const x0 (1 : 𝕜)).sub hφ).mul he
  have h := hrock.add (HasDerivAt.sum hterm)
  convert h using 1
  simp only [sub_self, mul_zero, add_zero]
  ring

end Derivative

section InRangeReads

variable {α : Type}

theorem index_getD (xs : List α) (i : Nat) (d : α) (h : i < xs.length) :
    index xs i = Except.ok (xs.getD i d) := by
  simp [index, List.getD, List.getElem?_eq_getElem h]

theorem index2_getD (xs : List (List α)) (row : List α) (i j : Nat) (d : α)
    (hrow : xs[i]? = some row) (hj : j < row.length) :
    index2 xs i j = Except.ok (row.getD j d) := by
  simp [index2, index, hrow, List.getD, List.getElem?_eq_getElem hj]

/-- Reads through a pointer the constructor stored succeed on a row of `N` entries. -/
theorem phaseAt_constructed (N : Nat) (xs : List (List α)) (row : List α) (i : Nat) (d : α)
    (hrow : xs[i]? = some row) (hlen : row.length = N) (p : Nat) (hp : p < N) :
    phaseAt (if decide (N > 0) = true then some xs else none) i p =
      Except.ok (row.getD p d) := by
  have hpos : N > 0 := by omega
  simp only [hpos, decide_True, if_true, phaseAt, deref, ok_bind]
  exact index2_getD xs row i p d hrow (by omega)

/-- Reads of a derivative through a pointer the constructor stored succeed on a row of `N`
vectors of `P` entries. -/
theorem dphaseAt_constructed (N P : Nat) (xs : List (List (List α))) (row : List (List α))
    (i : Nat) (d : α) (hrow : xs[i]? = some row) (hlen : row.length = N)
    (hvec : ∀ r, r ∈ row → r.length = P) (pvar : Nat) (hpvar : pvar < P) (p : Nat)
    (hp : p < N) :
    dphaseAt (if decide (N > 0) = true then some xs else none) i p pvar =
      Except.ok ((row.getD p []).getD pvar d) := by
  have hpos : N > 0 := by omega
  have hp2 : p < row.length := by omega
  have hmem : row.getD p [] ∈ row := by
    rw [List.getD_eq_getElem row [] hp2]
    exact List.getElem_mem hp2
  simp only [hpos, decide_True, if_true, dphaseAt, deref, ok_bind,
    index2_getD xs row i p [] hrow hp2]
  exact index_getD _ pvar d (by rw [hvec _ hmem]; exact hpvar)

end InRangeReads

section ReturnsLemmas

variable {α σ : Type}

theorem returns_ok (a : α) : Returns (Except.ok a : Except Fault α) := ⟨a, rfl⟩

/-- A loop whose body returns on every phase it visits returns. -/
theorem forLoop_returns (body : Nat → σ → Except Fault σ) :
    ∀ (n lo : Nat) (acc : σ),
      (∀ ph, lo ≤ ph → ph < lo + n → ∀ a, Returns (body ph a)) →
      Returns (forLoop body n lo acc) := by
  intro n
  induction n with
  | zero => intro lo acc _; exact ⟨acc, rfl⟩
  | succ n ih =>
    intro lo acc h
    obtain ⟨acc1, h1⟩ := h lo (le_refl lo) (by omega) acc
    simp only [forLoop, h1, ok_bind]
    exact ih (lo + 1) acc1 (fun ph hlo hhi a => h ph (by omega) (by omega) a)

end ReturnsLemmas

namespace PorousFlowEnergyTimeDerivative

variable {K : Type} [Field K]

/-- The residual, once every read at node `_i` succeeds. -/
theorem computeQpResidual_eq (k : PorousFlowEnergyTimeDerivative K)
    (test φ e_rock φ_old e_rock_old : K) (ρ s u ρ_old s_old u_old : Nat → K)
    (htest : index2 k._test k._i k._qp = Except.ok test)
    (hφ : index k._porosity k._i = Except.ok φ)
    (he : index k._rock_energy_nodal k._i = Except.ok e_rock)
    (hφo : index k._porosity_old k._i = Except.ok φ_old)
    (heo : index k._rock_energy_nodal_old k._i = Except.ok e_rock_old)
    (hρ : ∀ p, p < k._num_phases → phaseAt k._fluid_density k._i p = Except.ok (ρ p))
    (hs : ∀ p, p < k._num_phases →
      phaseAt k._fluid_saturation_nodal k._i p = Except.ok (s p))
    (hu : ∀ p, p < k._num_phases → phaseAt k._energy_nodal k._i p = Except.ok (u p))
    (hρo : ∀ p, p < k._num_phases →
      phaseAt k._fluid_density_old k._i p = Except.ok (ρ_old p))
    (hso : ∀ p, p < k._num_phases →
      phaseAt k._fluid_saturation_nodal_old k._i p = Except.ok (s_old p))
    (huo : ∀ p, p < k._num_phases →
      phaseAt k._energy_nodal_old k._i p = Except.ok (u_old p)) :
    computeQpResidual k = Except.ok (test *
      (((1 - φ) * e_rock + ∑ p ∈ Finset.range k._num_phases, φ * ρ p * s p * u p) -
       ((1 - φ_old) * e_rock_old +
          ∑ p ∈ Finset.range k._num_phases, φ_old * ρ_old p * s_old p * u_old p)) / k._dt) := by
  have hbody : ∀ ph, ph < k._num_phases → ∀ a : K × K, residualPhase k ph a =
      Except.ok (a + (ρ ph * s ph * u ph * φ, ρ_old ph * s_old ph * u_old ph * φ_old)) := by
    intro ph hph a
    simp only [residualPhase, hρ ph hph, hs ph hph, hu ph hph, hρo ph hph, hso ph hph,
      huo ph hph, hφ, hφo, ok_bind, pure_eq_ok]
    rfl
  simp only [computeQpResidual, hφ, he, hφo, heo, ok_bind,
    forLoop_sum (residualPhase k) _ k._num_phases _ hbody, htest, pure_eq_ok]
  congr 1
  simp only [Prod.fst_add, Prod.snd_add, Prod.fst_sum, Prod.snd_sum]
  have e1 : ∀ p, ρ p * s p * u p * φ = φ * ρ p * s p * u p := fun p => by ring
  have e2 : ∀ p, ρ_old p * s_old p * u_old p * φ_old = φ_old * ρ_old p * s_old p * u_old p :=
    fun p => by ring
  simp only [e1, e2]

/-- The value of the first loop of `computeQpJac`. -/
theorem jacGrad_loop_eq (k : PorousFlowEnergyTimeDerivative K) (pvar : Nat)
    (dg gp : RealGradient K) (ρ s u : Nat → K)
    (hdg : index2 k._dporosity_dgradvar k._i pvar = Except.ok dg)
    (hgp : index2 k._grad_phi k._j k._i = Except.ok gp)
    (hρ : ∀ p, p < k._num_phases → phaseAt k._fluid_density k._i p = Except.ok (ρ p))
    (hs : ∀ p, p < k._num_phases →
      phaseAt k._fluid_saturation_nodal k._i p = Except.ok (s p))
    (hu : ∀ p, p < k._num_phases → phaseAt k._energy_nodal k._i p = Except.ok (u p))
    (acc : K) :
    forLoop (jacGradPhase k pvar) k._num_phases 0 acc =
      Except.ok (acc + ∑ p ∈ Finset.range k._num_phases, ρ p * s p * u p * dg.dot gp) := by
  apply forLoop_sum
  intro ph hph a
  simp only [jacGradPhase, hρ ph hph, hs ph hph, hu ph hph, hdg, hgp, ok_bind, pure_eq_ok,
    RealGradient.smul_dot]

/-- The off-diagonal Jacobian, once every read it makes succeeds. -/
theorem computeQpJac_offdiag_eq (k : PorousFlowEnergyTimeDerivative K) (pvar : Nat)
    (test e_rock : K) (dg gp : RealGradient K) (ρ s u : Nat → K)
    (hij : k._i ≠ k._j)
    (htest : index2 k._test k._i k._qp = Except.ok test)
    (hdg : index2 k._dporosity_dgradvar k._i pvar = Except.ok dg)
    (hgp : index2 k._grad_phi k._j k._i = Except.ok gp)
    (he : index k._rock_energy_nodal k._i = Except.ok e_rock)
    (hρ : ∀ p, p < k._num_phases → phaseAt k._fluid_density k._i p = Except.ok (ρ p))
    (hs : ∀ p, p < k._num_phases →
      phaseAt k._fluid_saturation_nodal k._i p = Except.ok (s p))
    (hu : ∀ p, p < k._num_phases → phaseAt k._energy_nodal k._i p = Except.ok (u p)) :
    computeQpJac k pvar = Except.ok (test *
      (-(dg.dot gp) * e_rock +
        ∑ p ∈ Finset.range k._num_phases, ρ p * s p * u p * dg.dot gp) / k._dt) := by
  simp only [computeQpJac, hdg, hgp, he, ok_bind,
    jacGrad_loop_eq k pvar dg gp ρ s u hdg hgp hρ hs hu, hij, ne_eq, not_false_eq_true,
    if_true, htest, pure_eq_ok, RealGradient.neg_dot]

/-- The diagonal Jacobian, once every read it makes succeeds. -/
theorem computeQpJac_diag_eq (k : PorousFlowEnergyTimeDerivative K) (pvar : Nat)
    (test φ e_rock dφ de_rock : K) (dg gp : RealGradient K) (ρ s u dρ ds du : Nat → K)
    (hij : k._i = k._j)
    (htest : index2 k._test k._i k._qp = Except.ok test)
    (hdg : index2 k._dporosity_dgradvar k._i pvar = Except.ok dg)
    (hgp : index2 k._grad_phi k._j k._i = Except.ok gp)
    (hφ : index k._porosity k._i = Except.ok φ)
    (he : index k._rock_energy_nodal k._i = Except.ok e_rock)
    (hdφ : index2 k._dporosity_dvar k._i pvar = Except.ok dφ)
    (hde : index2 k._drock_energy_nodal_dvar k._i pvar = Except.ok de_rock)
    (hρ : ∀ p, p < k._num_phases → phaseAt k._fluid_density k._i p = Except.ok (ρ p))
    (hs : ∀ p, p < k._num_phases →
      phaseAt k._fluid_saturation_nodal k._i p = Except.ok (s p))
    (hu : ∀ p, p < k._num_phases → phaseAt k._energy_nodal k._i p = Except.ok (u p))
    (hdρ : ∀ p, p < k._num_phases →
      dphaseAt k._dfluid_density_dvar k._i p pvar = Except.ok (dρ p))
    (hds : ∀ p, p < k._num_phases →
      dphaseAt k._dfluid_saturation_nodal_dvar k._i p pvar = Except.ok (ds p))
    (hdu : ∀ p, p < k._num_phases →
      dphaseAt k._denergy_nodal_dvar k._i p pvar = Except.ok (du p)) :
    computeQpJac k pvar = Except.ok (test *
      (dg.dot gp * (∑ p ∈ Finset.range k._num_phases, ρ p * s p * u p - e_rock) +
        (-dφ * e_rock + (1 - φ) * de_rock +
          ∑ p ∈ Finset.range k._num_phases,
            (dρ p * s p * u p * φ + ρ p * ds p * u p * φ + ρ p * s p * du p * φ +
              ρ p * s p * u p * dφ))) / k._dt) := by
  have hbody : ∀ ph, ph < k._num_phases → ∀ a : K, jacNodePhase k pvar ph a =
      Except.ok (a + (dρ ph * s ph * u ph * φ + ρ ph * ds ph * u ph * φ +
        ρ ph * s ph * du ph * φ + ρ ph * s ph * u ph * dφ)) := by
    intro ph hph a
    simp only [jacNodePhase, hρ ph hph, hs ph hph, hu ph hph, hdρ ph hph, hds ph hph,
      hdu ph hph, hφ, hdφ, ok_bind, pure_eq_ok]
    congr 1
    ring
  have hne : (k._i ≠ k._j) = False := by simp [hij]
  simp only [computeQpJac, hdg, hgp, he, ok_bind,
    jacGrad_loop_eq k pvar dg gp ρ s u hdg hgp hρ hs hu, hne,
    if_false, hdφ, hφ, hde, forLoop_sum (jacNodePhase k pvar) _ k._num_phases _ hbody,
    htest, pure_eq_ok, RealGradient.neg_dot]
  congr 2
  rw [← Finset.sum_mul]
  ring

theorem ofFin_read (N : Nat) (r : Nat → Except Fault K) (f : Fin N → K)
    (h : ∀ p : Fin N, r p = Except.ok (f p)) :
    ∀ p, p < N → r p = Except.ok (ofFin f p) := by
  intro p hp
  simp only [ofFin, hp, dite_true]
  exact h ⟨p, hp⟩

theorem sum_range_ofFin (N : Nat) (g : Fin N → K) (G : Nat → K)
    (h : ∀ p : Fin N, G p = g p) : ∑ p ∈ Finset.range N, G p = ∑ p : Fin N, g p := by
  rw [Finset.sum_range]
  exact Finset.sum_congr rfl (fun p _ => h p)

@[simp]
theorem ofFin_coe (N : Nat) (f : Fin N → K) (p : Fin N) : ofFin f (p : Nat) = f p := by
  simp [ofFin]

/-- The residual with the phase values given on `Fin _num_phases`. -/
theorem computeQpResidual_eq_fin (k : PorousFlowEnergyTimeDerivative K)
    (test φ e_rock φ_old e_rock_old : K)
    (ρ s u ρ_old s_old u_old : Fin k._num_phases → K)
    (htest : index2 k._test k._i k._qp = Except.ok test)
    (hφ : index k._porosity k._i = Except.ok φ)
    (he : index k._rock_energy_nodal k._i = Except.ok e_rock)
    (hφo : index k._porosity_old k._i = Except.ok φ_old)
    (heo : index k._rock_energy_nodal_old k._i = Except.ok e_rock_old)
    (hρ : ∀ p : Fin k._num_phases, phaseAt k._fluid_density k._i p = Except.ok (ρ p))
    (hs : ∀ p : Fin k._num_phases,
      phaseAt k._fluid_saturation_nodal k._i p = Except.ok (s p))
    (hu : ∀ p : Fin k._num_phases, phaseAt k._energy_nodal k._i p = Except.ok (u p))
    (hρo : ∀ p : Fin k._num_phases,
      phaseAt k._fluid_density_old k._i p = Except.ok (ρ_old p))
    (hso : ∀ p : Fin k._num_phases,
      phaseAt k._fluid_saturation_nodal_old k._i p = Except.ok (s_old p))
    (huo : ∀ p : Fin k._num_phases,
      phaseAt k._energy_nodal_old k._i p = Except.ok (u_old p)) :
    computeQpResidual k = Except.ok (test *
      (((1 - φ) * e_rock + ∑ p : Fin k._num_phases, φ * ρ p * s p * u p) -
       ((1 - φ_old) * e_rock_old +
          ∑ p : Fin k._num_phases, φ_old * ρ_old p * s_old p * u_old p)) / k._dt) := by
  rw [computeQpResidual_eq k test φ e_rock φ_old e_rock_old (ofFin ρ) (ofFin s) (ofFin u)
    (ofFin ρ_old) (ofFin s_old) (ofFin u_old) htest hφ he hφo heo
    (ofFin_read _ _ ρ hρ) (ofFin_read _ _ s hs) (ofFin_read _ _ u hu)
    (ofFin_read _ _ ρ_old hρo) (ofFin_read _ _ s_old hso) (ofFin_read _ _ u_old huo),
    sum_range_ofFin _ (fun p => φ * ρ p * s p * u p) _ (fun p => by simp),
    sum_range_ofFin _ (fun p => φ_old * ρ_old p * s_old p * u_old p) _ (fun p => by simp)]

/-- The Jacobian with the phase values given on `Fin _num_phases`; the same-node terms
are present exactly when `_i = _j`. -/
theorem computeQpJac_eq_fin (k : PorousFlowEnergyTimeDerivative K) (pvar : Nat)
    (test φ e_rock dφ de_rock : K) (dg gp : RealGradient K)
    (ρ s u dρ ds du : Fin k._num_phases → K)
    (htest : index2 k._test k._i k._qp = Except.ok test)
    (hdg : index2 k._dporosity_dgradvar k._i pvar = Except.ok dg)
    (hgp : index2 k._grad_phi k._j k._i = Except.ok gp)
    (hφ : index k._porosity k._i = Except.ok φ)
    (he : index k._rock_energy_nodal k._i = Except.ok e_rock)
    (hdφ : index2 k._dporosity_dvar k._i pvar = Except.ok dφ)
    (hde : index2 k._drock_energy_nodal_dvar k._i pvar = Except.ok de_rock)
    (hρ : ∀ p : Fin k._num_phases, phaseAt k._fluid_density k._i p = Except.ok (ρ p))
    (hs : ∀ p : Fin k._num_phases,
      phaseAt k._fluid_saturation_nodal k._i p = Except.ok (s p))
    (hu : ∀ p : Fin k._num_phases, phaseAt k._energy_nodal k._i p = Except.ok (u p))
    (hdρ : ∀ p : Fin k._num_phases,
      dphaseAt k._dfluid_density_dvar k._i p pvar = Except.ok (dρ p))
    (hds : ∀ p : Fin k._num_phases,
      dphaseAt k._dfluid_saturation_nodal_dvar k._i p pvar = Except.ok (ds p))
    (hdu : ∀ p : Fin k._num_phases,
      dphaseAt k._denergy_nodal_dvar k._i p pvar = Except.ok (du p)) :
    computeQpJac k pvar = Except.ok (test *
      (if k._i = k._j then
        dg.dot gp * (∑ p : Fin k._num_phases, ρ p * s p * u p - e_rock) +
          (-dφ * e_rock + (1 - φ) * de_rock +
            ∑ p : Fin k._num_phases,
              (dρ p * s p * u p * φ + ρ p * ds p * u p * φ + ρ p * s p * du p * φ +
                ρ p * s p * u p * dφ))
      else
        -(dg.dot gp) * e_rock + ∑ p : Fin k._num_phases, ρ p * s p * u p * dg.dot gp) /
        k._dt) := by
  by_cases hij : k._i = k._j
  · rw [if_pos hij, computeQpJac_diag_eq k pvar test φ e_rock dφ de_rock dg gp (ofFin ρ)
      (ofFin s) (ofFin u) (ofFin dρ) (ofFin ds) (ofFin du) hij htest hdg hgp hφ he hdφ hde
      (ofFin_read _ _ ρ hρ) (ofFin_read _ _ s hs) (ofFin_read _ _ u hu)
      (ofFin_read _ _ dρ hdρ) (ofFin_read _ _ ds hds) (ofFin_read _ _ du hdu),
      sum_range_ofFin _ (fun p => ρ p * s p * u p) _ (fun p => by simp),
      sum_range_ofFin _ (fun p => dρ p * s p * u p * φ + ρ p * ds p * u p * φ +
        ρ p * s p * du p * φ + ρ p * s p * u p * dφ) _ (fun p => by simp)]
  · rw [if_neg hij, computeQpJac_offdiag_eq k pvar test e_rock dg gp (ofFin ρ) (ofFin s)
      (ofFin u) hij htest hdg hgp he (ofFin_read _ _ ρ hρ) (ofFin_read _ _ s hs)
      (ofFin_read _ _ u hu),
      sum_range_ofFin _ (fun p => ρ p * s p * u p * dg.dot gp) _ (fun p => by simp)]

/-- In any arithmetic, `computeQpResidual` returns once every read it makes succeeds. -/
theorem computeQpResidual_returns {R : Type} [One R] [Add R] [Sub R] [Mul R] [Div R]
    (k : PorousFlowEnergyTimeDerivative R)
    (htest : Returns (index2 k._test k._i k._qp))
    (hφ : Returns (index k._porosity k._i))
    (he : Returns (index k._rock_energy_nodal k._i))
    (hφo : Returns (index k._porosity_old k._i))
    (heo : Returns (index k._rock_energy_nodal_old k._i))
    (hρ : ∀ p, p < k._num_phases → Returns (phaseAt k._fluid_density k._i p))
    (hs : ∀ p, p < k._num_phases → Returns (phaseAt k._fluid_saturation_nodal k._i p))
    (hu : ∀ p, p < k._num_phases → Returns (phaseAt k._energy_nodal k._i p))
    (hρo : ∀ p, p < k._num_phases → Returns (phaseAt k._fluid_density_old k._i p))
    (hso : ∀ p, p < k._num_phases →
      Returns (phaseAt k._fluid_saturation_nodal_old k._i p))
    (huo : ∀ p, p < k._num_phases → Returns (phaseAt k._energy_nodal_old k._i p)) :
    Returns (computeQpResidual k) := by
  obtain ⟨test, htest⟩ := htest
  obtain ⟨φ, hφ⟩ := hφ
  obtain ⟨e, he⟩ := he
  obtain ⟨φo, hφo⟩ := hφo
  obtain ⟨eo, heo⟩ := heo
  have hbody : ∀ ph, 0 ≤ ph → ph < 0 + k._num_phases → ∀ a : R × R,
      Returns (residualPhase k ph a) := by
    intro ph _ hph a
    have hph2 : ph < k._num_phases := by omega
    obtain ⟨ρ, hρ⟩ := hρ ph hph2
    obtain ⟨s, hs⟩ := hs ph hph2
    obtain ⟨u, hu⟩ := hu ph hph2
    obtain ⟨ρo, hρo⟩ := hρo ph hph2
    obtain ⟨so, hso⟩ := hso ph hph2
    obtain ⟨uo, huo⟩ := huo ph hph2
    simp only [residualPhase, hρ, hs, hu, hρo, hso, huo, hφ, hφo, ok_bind, pure_eq_ok]
    exact returns_ok _
  obtain ⟨acc, hacc⟩ := forLoop_returns (residualPhase k) k._num_phases 0
    ((1 - φ) * e, (1 - φo) * eo) hbody
  simp only [computeQpResidual, hφ, he, hφo, heo, ok_bind, hacc, htest, pure_eq_ok]
  exact returns_ok _

/-- In any arithmetic, `computeQpJac` returns once every read it makes succeeds. -/
theorem computeQpJac_returns {R : Type} [One R] [Add R] [Sub R] [Mul R] [Neg R] [Div R]
    (k : PorousFlowEnergyTimeDerivative R) (pvar : Nat)
    (htest : Returns (index2 k._test k._i k._qp))
    (hdg : Returns (index2 k._dporosity_dgradvar k._i pvar))
    (hgp : Returns (index2 k._grad_phi k._j k._i))
    (hφ : Returns (index k._porosity k._i))
    (he : Returns (index k._rock_energy_nodal k._i))
    (hdφ : Returns (index2 k._dporosity_dvar k._i pvar))
    (hde : Returns (index2 k._drock_energy_nodal_dvar k._i pvar))
    (hρ : ∀ p, p < k._num_phases → Returns (phaseAt k._fluid_density k._i p))
    (hs : ∀ p, p < k._num_phases → Returns (phaseAt k._fluid_saturation_nodal k._i p))
    (hu : ∀ p, p < k._num_phases → Returns (phaseAt k._energy_nodal k._i p))
    (hdρ : ∀ p, p < k._num_phases → Returns (dphaseAt k._dfluid_density_dvar k._i p pvar))
    (hds : ∀ p, p < k._num_phases →
      Returns (dphaseAt k._dfluid_saturation_nodal_dvar k._i p pvar))
    (hdu : ∀ p, p < k._num_phases → Returns (dphaseAt k._denergy_nodal_dvar k._i p pvar)) :
    Returns (computeQpJac k pvar) := by
  obtain ⟨test, htest⟩ := htest
  obtain ⟨dg, hdg⟩ := hdg
  obtain ⟨gp, hgp⟩ := hgp
  obtain ⟨φ, hφ⟩ := hφ
  obtain ⟨e, he⟩ := he
  obtain ⟨dφ, hdφ⟩ := hdφ
  obtain ⟨de, hde⟩ := hde
  have hgrad : ∀ ph, 0 ≤ ph → ph < 0 + k._num_phases → ∀ a : R,
      Returns (jacGradPhase k pvar ph a) := by
    intro ph _ hph a
    have hph2 : ph < k._num_phases := by omega
    obtain ⟨ρ, hρ⟩ := hρ ph hph2
    obtain ⟨s, hs⟩ := hs ph hph2
    obtain ⟨u, hu⟩ := hu ph hph2
    simp only [jacGradPhase, hρ, hs, hu, hdg, hgp, ok_bind, pure_eq_ok]
    exact returns_ok _
  have hnode : ∀ ph, 0 ≤ ph → ph < 0 + k._num_phases → ∀ a : R,
      Returns (jacNodePhase k pvar ph a) := by
    intro ph _ hph a
    have hph2 : ph < k._num_phases := by omega
    obtain ⟨ρ, hρ⟩ := hρ ph hph2
    obtain ⟨s, hs⟩ := hs ph hph2
    obtain ⟨u, hu⟩ := hu ph hph2
    obtain ⟨dρ, hdρ⟩ := hdρ ph hph2
    obtain ⟨ds, hds⟩ := hds ph hph2
    obtain ⟨du, hdu⟩ := hdu ph hph2
    simp only [jacNodePhase, hρ, hs, hu, hdρ, hds, hdu, hφ, hdφ, ok_bind, pure_eq_ok]
    exact returns_ok _
  obtain ⟨d1, hd1⟩ := forLoop_returns (jacGradPhase k pvar) k._num_phases 0
    ((RealGradient.neg dg).dot gp * e) hgrad
  by_cases hij : k._i = k._j
  · have hne : (k._i ≠ k._j) = False := by simp [hij]
    obtain ⟨d4, hd4⟩ := forLoop_returns (jacNodePhase k pvar) k._num_phases 0
      (d1 + -dφ * e + (1 - φ) * de) hnode
    simp only [computeQpJac, hdg, hgp, he, ok_bind, hd1, hne, if_false, hdφ, hφ, hde, hd4,
      htest, pure_eq_ok]
    exact returns_ok _
  · simp only [computeQpJac, hdg, hgp, he, ok_bind, hd1, hij, ne_eq, not_false_eq_true,
      if_true, htest, pure_eq_ok]
    exact returns_ok _

/-- In any arithmetic, and for any `_dt`, the kernel the constructor builds from in-range
inputs returns from `computeQpResidual` and from `computeQpJac pvar`. -/
theorem returns_of_inRange {R : Type} [Zero R] [One R] [Add R] [Sub R] [Mul R] [Neg R] [Div R]
    (base : TimeKernel R) (dictator : PorousFlowDictator) (mp : MaterialData R)
    (P pvar : Nat)
    (hin : InRange base mp dictator.numPhases P)
    (hpvar : pvar < P) :
    Returns (computeQpResidual (construct base dictator mp)) ∧
      Returns (computeQpJac (construct base dictator mp) pvar) := by
  obtain ⟨trow, htrow, htq⟩ := hin.test
  obtain ⟨grow, hgrow, hgi⟩ := hin.grad_phi
  obtain ⟨dφrow, hdφrow, hdφlen⟩ := hin.dporosity_dvar
  obtain ⟨dgrow, hdgrow, hdglen⟩ := hin.dporosity_dgradvar
  obtain ⟨derow, hderow, hdelen⟩ := hin.drock_energy
  obtain ⟨ρrow, hρrow, hρlen⟩ := hin.density
  obtain ⟨ρorow, hρorow, hρolen⟩ := hin.density_old
  obtain ⟨srow, hsrow, hslen⟩ := hin.saturation
  obtain ⟨sorow, hsorow, hsolen⟩ := hin.saturation_old
  obtain ⟨urow, hurow, hulen⟩ := hin.energy
  obtain ⟨uorow, huorow, huolen⟩ := hin.energy_old
  obtain ⟨dρrow, hdρrow, hdρlen, hdρvec⟩ := hin.ddensity
  obtain ⟨dsrow, hdsrow, hdslen, hdsvec⟩ := hin.dsaturation
  obtain ⟨durow, hdurow, hdulen, hduvec⟩ := hin.denergy
  have htest : Returns (index2 base._test base._i base._qp) :=
    ⟨_, index2_getD base._test trow base._i base._qp 0 htrow htq⟩
  have hgp : Returns (index2 base._grad_phi base._j base._i) :=
    ⟨_, index2_getD base._grad_phi grow base._j base._i ⟨0, 0, 0⟩ hgrow hgi⟩
  have hφ : Returns (index mp.PorousFlow_porosity_nodal base._i) :=
    ⟨_, index_getD _ base._i 0 hin.porosity⟩
  have hφo : Returns (index mp.PorousFlow_porosity_nodal_old base._i) :=
    ⟨_, index_getD _ base._i 0 hin.porosity_old⟩
  have he : Returns (index mp.PorousFlow_matrix_internal_energy_nodal base._i) :=
    ⟨_, index_getD _ base._i 0 hin.rock_energy⟩
  have heo : Returns (index mp.PorousFlow_matrix_internal_energy_nodal_old base._i) :=
    ⟨_, index_getD _ base._i 0 hin.rock_energy_old⟩
  have hdφ : Returns (index2 mp.dPorousFlow_porosity_nodal_dvar base._i pvar) :=
    ⟨_, index2_getD _ dφrow base._i pvar 0 hdφrow (by omega)⟩
  have hdg : Returns (index2 mp.dPorousFlow_porosity_nodal_dgradvar base._i pvar) :=
    ⟨_, index2_getD _ dgrow base._i pvar ⟨0, 0, 0⟩ hdgrow (by omega)⟩
  have hde : Returns (index2 mp.dPorousFlow_matrix_internal_energy_nodal_dvar base._i pvar) :=
    ⟨_, index2_getD _ derow base._i pvar 0 hderow (by omega)⟩
  exact ⟨computeQpResidual_returns (construct base dictator mp) htest hφ he hφo heo
      (fun p hp => ⟨_, phaseAt_constructed dictator.numPhases _ ρrow base._i 0 hρrow hρlen p hp⟩)
      (fun p hp => ⟨_, phaseAt_constructed dictator.numPhases _ srow base._i 0 hsrow hslen p hp⟩)
      (fun p hp => ⟨_, phaseAt_constructed dictator.numPhases _ urow base._i 0 hurow hulen p hp⟩)
      (fun p hp =>
        ⟨_, phaseAt_constructed dictator.numPhases _ ρorow base._i 0 hρorow hρolen p hp⟩)
      (fun p hp =>
        ⟨_, phaseAt_constructed dictator.numPhases _ sorow base._i 0 hsorow hsolen p hp⟩)
      (fun p hp =>
        ⟨_, phaseAt_constructed dictator.numPhases _ uorow base._i 0 huorow huolen p hp⟩),
    computeQpJac_returns (construct base dictator mp) pvar htest hdg hgp hφ he hdφ hde
      (fun p hp => ⟨_, phaseAt_constructed dictator.numPhases _ ρrow base._i 0 hρrow hρlen p hp⟩)
      (fun p hp => ⟨_, phaseAt_constructed dictator.numPhases _ srow base._i 0 hsrow hslen p hp⟩)
      (fun p hp => ⟨_, phaseAt_constructed dictator.numPhases _ urow base._i 0 hurow hulen p hp⟩)
      (fun p hp => ⟨_, dphaseAt_constructed dictator.numPhases P _ dρrow base._i 0 hdρrow
        hdρlen hdρvec pvar hpvar p hp⟩)
      (fun p hp => ⟨_, dphaseAt_constructed dictator.numPhases P _ dsrow base._i 0 hdsrow
        hdslen hdsvec pvar hpvar p hp⟩)
      (fun p hp => ⟨_, dphaseAt_constructed dictator.numPhases P _ durow base._i 0 hdurow
        hdulen hduvec pvar hpvar p hp⟩)⟩

/-! ## The claims -/

/-- C1. For every node `_i`, phase count `_num_phases`, time step `_dt ≠ 0` and every field
snapshot whose entries at the node are `φ`, `e_rock`, `ρ p`, `s p`, `u p` and their
previous-timestep counterparts, `computeQpResidual` returns
`test * (energy - energy_old) / _dt` with
`energy = (1 - φ) * e_rock + Σ_{p < N} φ * ρ p * s p * u p` and `energy_old` the same
expression in the previous-timestep values. -/
theorem computeQpResidual_formula (k : PorousFlowEnergyTimeDerivative K)
    (test φ e_rock φ_old e_rock_old : K) (ρ s u ρ_old s_old u_old : Nat → K)
    (hdt : k._dt ≠ 0)
    (htest : index2 k._test k._i k._qp = Except.ok test)
    (hφ : index k._porosity k._i = Except.ok φ)
    (he : index k._rock_energy_nodal k._i = Except.ok e_rock)
    (hφo : index k._porosity_old k._i = Except.ok φ_old)
    (heo : index k._rock_energy_nodal_old k._i = Except.ok e_rock_old)
    (hρ : ∀ p, p < k._num_phases → phaseAt k._fluid_density k._i p = Except.ok (ρ p))
    (hs : ∀ p, p < k._num_phases →
      phaseAt k._fluid_saturation_nodal k._i p = Except.ok (s p))
    (hu : ∀ p, p < k._num_phases → phaseAt k._energy_nodal k._i p = Except.ok (u p))
    (hρo : ∀ p, p < k._num_phases →
      phaseAt k._fluid_density_old k._i p = Except.ok (ρ_old p))
    (hso : ∀ p, p < k._num_phases →
      phaseAt k._fluid_saturation_nodal_old k._i p = Except.ok (s_old p))
    (huo : ∀ p, p < k._num_phases →
      phaseAt k._energy_nodal_old k._i p = Except.ok (u_old p)) :
    let energy := (1 - φ) * e_rock + ∑ p ∈ Finset.range k._num_phases, φ * ρ p * s p * u p
    let energy_old := (1 - φ_old) * e_rock_old +
      ∑ p ∈ Finset.range k._num_phases, φ_old * ρ_old p * s_old p * u_old p
    computeQpResidual k = Except.ok (test * (energy - energy_old) / k._dt) := by
  have _ := hdt
  exact computeQpResidual_eq k test φ e_rock φ_old e_rock_old ρ s u ρ_old s_old u_old
    htest hφ he hφo heo hρ hs hu hρo hso huo

/-- C1 at the sample kernel: node `1`, two phases, `_dt = 2`. -/
theorem computeQpResidual_formula_witness :
    computeQpResidual (sampleKernel ℚ) = Except.ok (39 / 8) := by
  have h := computeQpResidual_formula (sampleKernel ℚ) 3 (1 / 4) 8 (1 / 2) 4
    (fun p => [2, 3].getD p 0) (fun p => [1 / 2, 1 / 2].getD p 0)
    (fun p => [4, 6].getD p 0) (fun p => [2, 3].getD p 0)
    (fun p => [1 / 2, 1 / 2].getD p 0) (fun p => [2, 4].getD p 0)
    (by simp [sampleKernel, construct, sampleBase]) rfl rfl rfl rfl rfl
    (fun p hp => by have h2 : p < 2 := hp; interval_cases p <;> rfl)
    (fun p hp => by have h2 : p < 2 := hp; interval_cases p <;> rfl)
    (fun p hp => by have h2 : p < 2 := hp; interval_cases p <;> rfl)
    (fun p hp => by have h2 : p < 2 := hp; interval_cases p <;> rfl)
    (fun p hp => by have h2 : p < 2 := hp; interval_cases p <;> rfl)
    (fun p hp => by have h2 : p < 2 := hp; interval_cases p <;> rfl)
  rw [h]
  have hN : (sampleKernel ℚ)._num_phases = 2 := rfl
  have hdt : (sampleKernel ℚ)._dt = 2 := rfl
  simp only [hN, hdt, Finset.sum_range_succ, Finset.sum_range_zero]
  norm_num

/-- C2. The diagonal Jacobian is the exact derivative of the residual. Let the current
fields read at node `_i` be affine in a scalar `x` around `x0`: rock energy, density,
saturation and phase energy with slopes `de_rock`, `dρ p`, `ds p`, `du p` (the `pvar`
entries of their derivative containers) and porosity with slope `dφ + dg · gp` (the `pvar`
entries of `_dporosity_dvar` and `_dporosity_dgradvar`, and `gp = _grad_phi[_i][_i]`),
while previous-timestep values, the test function, `_dt ≠ 0` and the derivative containers
do not depend on `x`. Then for `_i = _j` the residual returns a value `r x` for every `x`,
`computeQpJac pvar` returns a value `J` at the base point, and `r` has derivative `J` at
`x0`. -/
theorem computeQpJac_diag_is_derivative {𝕜 : Type} [NontriviallyNormedField 𝕜]
    (k : PorousFlowEnergyTimeDerivative 𝕜) (pvar : Nat) (x0 : 𝕜)
    (porosity rock_energy : 𝕜 → MaterialProperty 𝕜)
    (density saturation energy : 𝕜 → Option (MaterialProperty (List 𝕜)))
    (test φ e_rock dφ de_rock φ_old e_rock_old : 𝕜) (dg gp : RealGradient 𝕜)
    (ρ s u dρ ds du ρ_old s_old u_old : Nat → 𝕜)
    (hij : k._i = k._j)
    (hdt : k._dt ≠ 0)
    (htest : index2 k._test k._i k._qp = Except.ok test)
    (hdg : index2 k._dporosity_dgradvar k._i pvar = Except.ok dg)
    (hgp : index2 k._grad_phi k._j k._i = Except.ok gp)
    (hdφ : index2 k._dporosity_dvar k._i pvar = Except.ok dφ)
    (hde : index2 k._drock_energy_nodal_dvar k._i pvar = Except.ok de_rock)
    (hdρ : ∀ p, p < k._num_phases →
      dphaseAt k._dfluid_density_dvar k._i p pvar = Except.ok (dρ p))
    (hds : ∀ p, p < k._num_phases →
      dphaseAt k._dfluid_saturation_nodal_dvar k._i p pvar = Except.ok (ds p))
    (hdu : ∀ p, p < k._num_phases →
      dphaseAt k._denergy_nodal_dvar k._i p pvar = Except.ok (du p))
    (hφo : index k._porosity_old k._i = Except.ok φ_old)
    (heo : index k._rock_energy_nodal_old k._i = Except.ok e_rock_old)
    (hρo : ∀ p, p < k._num_phases →
      phaseAt k._fluid_density_old k._i p = Except.ok (ρ_old p))
    (hso : ∀ p, p < k._num_phases →
      phaseAt k._fluid_saturation_nodal_old k._i p = Except.ok (s_old p))
    (huo : ∀ p, p < k._num_phases →
      phaseAt k._energy_nodal_old k._i p = Except.ok (u_old p))
    (hφ : ∀ x, index (porosity x) k._i = Except.ok (φ + (dφ + dg.dot gp) * (x - x0)))
    (he : ∀ x, index (rock_energy x) k._i = Except.ok (e_rock + de_rock * (x - x0)))
    (hρ : ∀ x p, p < k._num_phases →
      phaseAt (density x) k._i p = Except.ok (ρ p + dρ p * (x - x0)))
    (hs : ∀ x p, p < k._num_phases →
      phaseAt (saturation x) k._i p = Except.ok (s p + ds p * (x - x0)))
    (hu : ∀ x p, p < k._num_phases →
      phaseAt (energy x) k._i p = Except.ok (u p + du p * (x - x0))) :
    let kx : 𝕜 → PorousFlowEnergyTimeDerivative 𝕜 := fun x =>
      { k with
        _porosity := porosity x
        _rock_energy_nodal := rock_energy x
        _fluid_density := density x
        _fluid_saturation_nodal := saturation x
        _energy_nodal := energy x }
    ∃ (r : 𝕜 → 𝕜) (J : 𝕜),
      (∀ x, computeQpResidual (kx x) = Except.ok (r x)) ∧
      computeQpJac (kx x0) pvar = Except.ok J ∧
      HasDerivAt r J x0 := by
  have _ := hdt
  intro kx
  have hres : ∀ x, computeQpResidual (kx x) = Except.ok (test *
      (((1 - (φ + (dφ + dg.dot gp) * (x - x0))) * (e_rock + de_rock * (x - x0)) +
        ∑ p ∈ Finset.range k._num_phases, (φ + (dφ + dg.dot gp) * (x - x0)) *
          (ρ p + dρ p * (x - x0)) * (s p + ds p * (x - x0)) * (u p + du p * (x - x0))) -
       ((1 - φ_old) * e_rock_old +
          ∑ p ∈ Finset.range k._num_phases, φ_old * ρ_old p * s_old p * u_old p)) / k._dt) :=
    fun x => computeQpResidual_eq (kx x) test _ _ φ_old e_rock_old _ _ _ ρ_old s_old u_old
      htest (hφ x) (he x) hφo heo (hρ x) (hs x) (hu x) hρo hso huo
  have hjac := computeQpJac_diag_eq (kx x0) pvar test φ e_rock dφ de_rock dg gp ρ s u dρ ds du
    hij htest hdg hgp (by simpa using hφ x0) (by simpa using he x0) hdφ hde
    (fun p hp => by simpa using hρ x0 p hp) (fun p hp => by simpa using hs x0 p hp)
    (fun p hp => by simpa using hu x0 p hp) hdρ hds hdu
  refine ⟨_, _, hres, hjac, ?_⟩
  have h := (((energy_hasDerivAt k._num_phases x0 φ e_rock (dφ + dg.dot gp) de_rock
    ρ s u dρ ds du).sub_const ((1 - φ_old) * e_rock_old +
      ∑ p ∈ Finset.range k._num_phases, φ_old * ρ_old p * s_old p * u_old p)).const_mul
        test).div_const k._dt
  have key : ∑ p ∈ Finset.range k._num_phases,
      (dρ p * s p * u p * φ + ρ p * ds p * u p * φ + ρ p * s p * du p * φ +
        ρ p * s p * u p * (dφ + dg.dot gp)) =
      ∑ p ∈ Finset.range k._num_phases,
        (dρ p * s p * u p * φ + ρ p * ds p * u p * φ + ρ p * s p * du p * φ +
          ρ p * s p * u p * dφ) +
      dg.dot gp * ∑ p ∈ Finset.range k._num_phases, ρ p * s p * u p := by
    rw [Finset.mul_sum, ← Finset.sum_add_distrib]
    exact Finset.sum_congr rfl (fun p _ => by ring)
  convert h using 2
  have hN : (kx x0)._num_phases = k._num_phases := rfl
  rw [hN, key]
  ring

/-- C2 at the sample kernel, `pvar = 1`, base point `x0 = 1`: the sample family's residual
has derivative `369 / 8`, the value of `computeQpJac 1`. -/
theorem computeQpJac_diag_is_derivative_witness :
    ∃ (r : ℚ → ℚ) (J : ℚ),
      (∀ x, computeQpResidual (sampleFamily x) = Except.ok (r x)) ∧
      computeQpJac (sampleFamily 1) 1 = Except.ok J ∧
      HasDerivAt r J 1 :=
  computeQpJac_diag_is_derivative (sampleKernel ℚ) 1 1
    (fun x => [1 / 2, 1 / 4 + 4 * (x - 1)])
    (fun x => [7, 8 + 5 * (x - 1)])
    (fun x => some [[1, 1], [2 + 2 * (x - 1), 3 + 4 * (x - 1)]])
    (fun x => some [[1, 0], [1 / 2 + 1 * (x - 1), 1 / 2 + 0 * (x - 1)]])
    (fun x => some [[1, 1], [4 + 1 * (x - 1), 6 + 2 * (x - 1)]])
    3 (1 / 4) 8 2 5 (1 / 2) 4 ⟨0, 1, 2⟩ ⟨2, 0, 1⟩
    (fun p => [2, 3].getD p 0) (fun p => [1 / 2, 1 / 2].getD p 0)
    (fun p => [4, 6].getD p 0) (fun p => [2, 4].getD p 0)
    (fun p => [1, 0].getD p 0) (fun p => [1, 2].getD p 0)
    (fun p => [2, 3].getD p 0) (fun p => [1 / 2, 1 / 2].getD p 0)
    (fun p => [2, 4].getD p 0)
    rfl (by simp [sampleKernel, construct, sampleBase]) rfl rfl rfl rfl rfl
    (fun p hp => by have h2 : p < 2 := hp; interval_cases p <;> rfl)
    (fun p hp => by have h2 : p < 2 := hp; interval_cases p <;> rfl)
    (fun p hp => by have h2 : p < 2 := hp; interval_cases p <;> rfl)
    rfl rfl
    (fun p hp => by have h2 : p < 2 := hp; interval_cases p <;> rfl)
    (fun p hp => by have h2 : p < 2 := hp; interval_cases p <;> rfl)
    (fun p hp => by have h2 : p < 2 := hp; interval_cases p <;> rfl)
    (fun x => by
      have hg : (2 : ℚ) + RealGradient.dot ⟨0, 1, 2⟩ ⟨2, 0, 1⟩ = 4 := by
        simp [RealGradient.dot]; norm_num
      rw [hg]; rfl)
    (fun x => rfl)
    (fun x p hp => by have h2 : p < 2 := hp; interval_cases p <;> rfl)
    (fun x p hp => by have h2 : p < 2 := hp; interval_cases p <;> rfl)
    (fun x p hp => by have h2 : p < 2 := hp; interval_cases p <;> rfl)

/-- C5. If the dictator reports `notPorousFlowVariable jvar`, then
`computeQpOffDiagJacobian jvar` returns exactly `0`, for every pair `(_i, _j)` and every
content of every other member, also one on which `computeQpJac` would fault:
`computeQpJac` is not evaluated. -/
theorem computeQpOffDiagJacobian_zero_of_notPorousFlowVariable
    (k : PorousFlowEnergyTimeDerivative K) (jvar : Nat)
    (h : k._dictator.notPorousFlowVariable jvar = true) :
    computeQpOffDiagJacobian k jvar = Except.ok 0 := by
  simp [computeQpOffDiagJacobian, h]

/-- C5 on a kernel over empty containers, where `computeQpJac` faults for the index the
dictator maps `jvar = 5` to, and the off-diagonal Jacobian is `0` all the same. -/
theorem computeQpOffDiagJacobian_zero_of_notPorousFlowVariable_witness :
    computeQpJac (emptyKernel ℚ) ((emptyKernel ℚ)._dictator.porousFlowVariableNum 5) =
        Except.error Fault.outOfRange ∧
      computeQpOffDiagJacobian (emptyKernel ℚ) 5 = Except.ok 0 :=
  ⟨rfl, computeQpOffDiagJacobian_zero_of_notPorousFlowVariable (emptyKernel ℚ) 5 rfl⟩

/-- C6. For the kernel the constructor builds, `computeQpJacobian` returns exactly `0` when
the dictator does not report the kernel's own variable as a PorousFlow variable, whatever
the other inputs, and otherwise returns `computeQpJac` at the index
`porousFlowVariableNum` gives for the kernel's own variable. -/
theorem computeQpJacobian_dispatch (base : TimeKernel K) (dictator : PorousFlowDictator)
    (mp : MaterialData K) :
    computeQpJacobian (construct base dictator mp) =
      if dictator.isPorousFlowVariable base._var_number = true then
        computeQpJac (construct base dictator mp)
          (dictator.porousFlowVariableNum base._var_number)
      else Except.ok 0 := by
  cases h : dictator.isPorousFlowVariable base._var_number <;>
    simp [computeQpJacobian, construct, h]

/-- C7. For `_i ≠ _j`, `computeQpJac pvar` is unchanged by the lumped derivative inputs:
replacing `_drock_energy_nodal_dvar`, `_dfluid_density_dvar`,
`_dfluid_saturation_nodal_dvar` and `_denergy_nodal_dvar` by arbitrary containers (or by
`NULL`) leaves the result, value or fault, the same. -/
theorem computeQpJac_offdiag_ignores_lumped_derivatives
    (k : PorousFlowEnergyTimeDerivative K) (pvar : Nat)
    (drock : MaterialProperty (List K))
    (ddensity dsaturation denergy : Option (MaterialProperty (List (List K))))
    (hij : k._i ≠ k._j) :
    computeQpJac
      { k with
        _drock_energy_nodal_dvar := drock
        _dfluid_density_dvar := ddensity
        _dfluid_saturation_nodal_dvar := dsaturation
        _denergy_nodal_dvar := denergy } pvar = computeQpJac k pvar := by
  simp only [computeQpJac, hij, ne_eq, not_false_eq_true, if_true]
  rfl

/-- C7 at the sample kernel off the diagonal, with the four derivative containers emptied
or nulled: the result is still `15 / 2`. -/
theorem computeQpJac_offdiag_ignores_lumped_derivatives_witness :
    computeQpJac
      { sampleKernelOff ℚ with
        _drock_energy_nodal_dvar := []
        _dfluid_density_dvar := none
        _dfluid_saturation_nodal_dvar := some [[[5]]]
        _denergy_nodal_dvar := none } 1 = computeQpJac (sampleKernelOff ℚ) 1 :=
  computeQpJac_offdiag_ignores_lumped_derivatives (sampleKernelOff ℚ) 1 [] none
    (some [[[5]]]) none (by decide)

/-- C8, in exact arithmetic. For `_i ≠ _j`, every `pvar`, phase count and `_dt ≠ 0`: if the
product `dg · gp` of `_dporosity_dgradvar[_i][pvar]` and `_grad_phi[_j][_i]` is `0`, then
`computeQpJac pvar` returns `0`, whatever the fields and the derivative containers
`_dporosity_dvar`, `_drock_energy_nodal_dvar`, `_dfluid_density_dvar`,
`_dfluid_saturation_nodal_dvar` and `_denergy_nodal_dvar` hold. -/
theorem computeQpJac_offdiag_zero_of_gradient_zero (k : PorousFlowEnergyTimeDerivative K)
    (pvar : Nat) (test e_rock : K) (dg gp : RealGradient K) (ρ s u : Nat → K)
    (hij : k._i ≠ k._j)
    (hdt : k._dt ≠ 0)
    (htest : index2 k._test k._i k._qp = Except.ok test)
    (hdg : index2 k._dporosity_dgradvar k._i pvar = Except.ok dg)
    (hgp : index2 k._grad_phi k._j k._i = Except.ok gp)
    (he : index k._rock_energy_nodal k._i = Except.ok e_rock)
    (hρ : ∀ p, p < k._num_phases → phaseAt k._fluid_density k._i p = Except.ok (ρ p))
    (hs : ∀ p, p < k._num_phases →
      phaseAt k._fluid_saturation_nodal k._i p = Except.ok (s p))
    (hu : ∀ p, p < k._num_phases → phaseAt k._energy_nodal k._i p = Except.ok (u p))
    (hg : dg.dot gp = 0) :
    computeQpJac k pvar = Except.ok 0 := by
  have _ := hdt
  rw [computeQpJac_offdiag_eq k pvar test e_rock dg gp ρ s u hij htest hdg hgp he hρ hs hu,
    hg]
  simp

/-- C8 at the sample kernel: `_i = 1`, `_j = 0`, `pvar = 0`, where
`_dporosity_dgradvar[1][0] = (1, 0, 0)` and `_grad_phi[0][1] = (0, 1, 0)`. -/
theorem computeQpJac_offdiag_zero_of_gradient_zero_witness :
    computeQpJac (sampleKernelOff ℚ) 0 = Except.ok 0 :=
  computeQpJac_offdiag_zero_of_gradient_zero (sampleKernelOff ℚ) 0 3 8 ⟨1, 0, 0⟩ ⟨0, 1, 0⟩
    (fun p => [2, 3].getD p 0) (fun p => [1 / 2, 1 / 2].getD p 0)
    (fun p => [4, 6].getD p 0)
    (by decide) (by simp [sampleKernelOff, construct, sampleBaseOff, sampleBase])
    rfl rfl rfl rfl
    (fun p hp => by have h2 : p < 2 := hp; interval_cases p <;> rfl)
    (fun p hp => by have h2 : p < 2 := hp; interval_cases p <;> rfl)
    (fun p hp => by have h2 : p < 2 := hp; interval_cases p <;> rfl)
    (by simp [RealGradient.dot])

set_option maxRecDepth 4000 in
/-- C8 fails in the `double` arithmetic of the code. At `doubleKernel` (`_i = 0`, `_j = 1`,
one phase, `_dt = 1.0`) the vectors `_dporosity_dgradvar[0][0] = (0.1, 0.3, 0)` and
`_grad_phi[1][0] = (0.3, -0.1, 0)` have the product `0`, yet `computeQpJac 0` returns
`2^-56` (about `1.39e-17`) and not `0`: source line 84 scales the vector by
`ρ * s * u = 3` before it takes the dot product, and the two roundings no longer cancel. -/
theorem computeQpJac_offdiag_nonzero_in_double :
    doubleKernel._i ≠ doubleKernel._j ∧
      doubleKernel._dt ≠ 0 ∧
      index2 doubleKernel._dporosity_dgradvar doubleKernel._i 0 =
        Except.ok ⟨Binary64.ofFrac 1 10, Binary64.ofFrac 3 10, 0⟩ ∧
      index2 doubleKernel._grad_phi doubleKernel._j doubleKernel._i =
        Except.ok ⟨Binary64.ofFrac 3 10, -Binary64.ofFrac 1 10, 0⟩ ∧
      RealGradient.dot (⟨Binary64.ofFrac 1 10, Binary64.ofFrac 3 10, 0⟩ : RealGradient Binary64)
        ⟨Binary64.ofFrac 3 10, -Binary64.ofFrac 1 10, 0⟩ = 0 ∧
      computeQpJac doubleKernel 0 = Except.ok (Binary64.finite false (2 ^ 52) (-108)) ∧
      Binary64.finite false (2 ^ 52) (-108) ≠ 0 :=
  ⟨by decide, by decide, rfl, rfl, by decide, rfl, by decide⟩

/-- C9. For `_num_phases = 0` and every `_dt ≠ 0`, `computeQpResidual` returns
`test * ((1 - φ) * e_rock - (1 - φ_old) * e_rock_old) / _dt`, whatever the phase pointers
hold. -/
theorem computeQpResidual_no_phases (k : PorousFlowEnergyTimeDerivative K)
    (test φ e_rock φ_old e_rock_old : K)
    (hN : k._num_phases = 0)
    (hdt : k._dt ≠ 0)
    (htest : index2 k._test k._i k._qp = Except.ok test)
    (hφ : index k._porosity k._i = Except.ok φ)
    (he : index k._rock_energy_nodal k._i = Except.ok e_rock)
    (hφo : index k._porosity_old k._i = Except.ok φ_old)
    (heo : index k._rock_energy_nodal_old k._i = Except.ok e_rock_old) :
    computeQpResidual k =
      Except.ok (test * ((1 - φ) * e_rock - (1 - φ_old) * e_rock_old) / k._dt) := by
  have _ := hdt
  simp only [computeQpResidual, hφ, he, hφo, heo, hN, forLoop, ok_bind, htest, pure_eq_ok]

/-- C9 at the sample kernel without fluid: node `1`, `_dt = 2`, null phase pointers. -/
theorem computeQpResidual_no_phases_witness :
    computeQpResidual (sampleKernelNoFluid ℚ) = Except.ok 6 := by
  have h := computeQpResidual_no_phases (sampleKernelNoFluid ℚ) 3 (1 / 4) 8 (1 / 2) 4 rfl
    (by simp [sampleKernelNoFluid, construct, sampleBase]) rfl rfl rfl rfl rfl
  rw [h]
  have hdt : (sampleKernelNoFluid ℚ)._dt = 2 := rfl
  rw [hdt]
  norm_num

/-- C10. When the dictator reports no fluid phase, the constructor stores `NULL` in the nine
phase pointers, and they are never dereferenced: `computeQpResidual` and `computeQpJac`
(for `_i = _j` and for `_i ≠ _j`) give the same result as with any present phase containers
of arbitrary content, and they return a value, reaching no error branch, as soon as the
reads of the other members succeed. -/
theorem no_fluid_never_dereferences (base : TimeKernel K) (dictator : PorousFlowDictator)
    (mp : MaterialData K) (pvar : Nat)
    (density density_old saturation saturation_old energy energy_old :
      MaterialProperty (List K))
    (ddensity dsaturation denergy : MaterialProperty (List (List K)))
    (hN : dictator.numPhases = 0) :
    let k := construct base dictator mp
    let k_present := withPhaseData k density density_old saturation saturation_old energy
      energy_old ddensity dsaturation denergy
    (k._fluid_density = none ∧ k._fluid_density_old = none ∧ k._dfluid_density_dvar = none ∧
      k._fluid_saturation_nodal = none ∧ k._fluid_saturation_nodal_old = none ∧
      k._dfluid_saturation_nodal_dvar = none ∧ k._energy_nodal = none ∧
      k._energy_nodal_old = none ∧ k._denergy_nodal_dvar = none) ∧
    computeQpResidual k = computeQpResidual k_present ∧
    computeQpJac k pvar = computeQpJac k_present pvar ∧
    (Returns (index2 k._test k._i k._qp) → Returns (index k._porosity k._i) →
      Returns (index k._rock_energy_nodal k._i) → Returns (index k._porosity_old k._i) →
      Returns (index k._rock_energy_nodal_old k._i) → Returns (computeQpResidual k)) ∧
    (Returns (index2 k._test k._i k._qp) → Returns (index2 k._dporosity_dgradvar k._i pvar) →
      Returns (index2 k._grad_phi k._j k._i) → Returns (index k._rock_energy_nodal k._i) →
      (k._i = k._j → Returns (index2 k._dporosity_dvar k._i pvar) ∧
        Returns (index k._porosity k._i) ∧
        Returns (index2 k._drock_energy_nodal_dvar k._i pvar)) →
      Returns (computeQpJac k pvar)) := by
  intro k k_present
  have hk : k._num_phases = 0 := hN
  have hkp : k_present._num_phases = 0 := hN
  have hvac : ∀ {α : Type} (r : Nat → Except Fault α) (f : Nat → α),
      ∀ p, p < k._num_phases → r p = Except.ok (f p) :=
    fun _ _ p hp => absurd hp (by rw [hk]; exact Nat.not_lt_zero p)
  refine ⟨?_, ?_, ?_, ?_, ?_⟩
  · simp [k, construct, hN]
  · simp only [computeQpResidual, hk, hkp, forLoop]
    rfl
  · simp only [computeQpJac, hk, hkp, forLoop]
    rfl
  · rintro ⟨test, htest⟩ ⟨φ, hφ⟩ ⟨e, he⟩ ⟨φo, hφo⟩ ⟨eo, heo⟩
    exact ⟨_, computeQpResidual_eq k test φ e φo eo (fun _ => 0) (fun _ => 0) (fun _ => 0)
      (fun _ => 0) (fun _ => 0) (fun _ => 0) htest hφ he hφo heo (hvac _ _) (hvac _ _)
      (hvac _ _) (hvac _ _) (hvac _ _) (hvac _ _)⟩
  · rintro ⟨test, htest⟩ ⟨dg, hdg⟩ ⟨gp, hgp⟩ ⟨e, he⟩ hdiag
    by_cases hij : k._i = k._j
    · obtain ⟨⟨dφ, hdφ⟩, ⟨φ, hφ⟩, ⟨de, hde⟩⟩ := hdiag hij
      exact ⟨_, computeQpJac_diag_eq k pvar test φ e dφ de dg gp (fun _ => 0) (fun _ => 0)
        (fun _ => 0) (fun _ => 0) (fun _ => 0) (fun _ => 0) hij htest hdg hgp hφ he hdφ hde
        (hvac _ _) (hvac _ _) (hvac _ _) (hvac _ _) (hvac _ _) (hvac _ _)⟩
    · exact ⟨_, computeQpJac_offdiag_eq k pvar test e dg gp (fun _ => 0) (fun _ => 0)
        (fun _ => 0) hij htest hdg hgp he (hvac _ _) (hvac _ _) (hvac _ _)⟩

/-- C10 at the sample kernel without fluid: with the null pointers the residual is `6` and
the Jacobian for `pvar = 1` is `-339 / 8`, as they are with present, empty containers. -/
theorem no_fluid_never_dereferences_witness :
    computeQpResidual (sampleKernelNoFluid ℚ) = Except.ok 6 ∧
      computeQpResidual (withPhaseData (sampleKernelNoFluid ℚ) [] [] [] [] [] [] [] [] []) =
        Except.ok 6 ∧
      computeQpJac (sampleKernelNoFluid ℚ) 1 = Except.ok (-339 / 8) ∧
      computeQpJac (withPhaseData (sampleKernelNoFluid ℚ) [] [] [] [] [] [] [] [] []) 1 =
        Except.ok (-339 / 8) := by
  have h := no_fluid_never_dereferences (sampleBase ℚ) sampleDictatorNoFluid
    (sampleMaterials ℚ) 1 [] [] [] [] [] [] [] [] [] rfl
  have hres : computeQpResidual (sampleKernelNoFluid ℚ) = Except.ok 6 := by
    simp [computeQpResidual, sampleKernelNoFluid, construct, sampleDictatorNoFluid,
      sampleDictator, sampleBase, sampleMaterials, forLoop, index, index2]
    norm_num
  have hjac : computeQpJac (sampleKernelNoFluid ℚ) 1 = Except.ok (-339 / 8) := by
    simp [computeQpJac, sampleKernelNoFluid, construct, sampleDictatorNoFluid,
      sampleDictator, sampleBase, sampleMaterials, forLoop, index, index2,
      RealGradient.dot, RealGradient.neg]
    norm_num
  exact ⟨hres, h.2.1 ▸ hres, hjac, h.2.2.1 ▸ hjac⟩

/-- C11, as the code has it. At `_dt = 0` the methods do not fail fast: the code has no
check of `_dt`, and for the kernel the constructor builds from in-range inputs (see
`InRange`) with `pvar < P`, `computeQpResidual` and `computeQpJac pvar` return a value and
signal no error, in exact arithmetic and in the `double` arithmetic of the code alike. -/
theorem dt_zero_no_error_signal {R : Type} [Zero R] [One R] [Add R] [Sub R] [Mul R] [Neg R]
    [Div R] (base : TimeKernel R) (dictator : PorousFlowDictator) (mp : MaterialData R)
    (P pvar : Nat)
    (hdt : base._dt = 0)
    (hin : InRange base mp dictator.numPhases P)
    (hpvar : pvar < P) :
    Returns (computeQpResidual (construct base dictator mp)) ∧
      Returns (computeQpJac (construct base dictator mp) pvar) := by
  have _ := hdt
  exact returns_of_inRange base dictator mp P pvar hin hpvar

/-- C11 as amended, at the `double` kernel with the time step set to `0.0`: one phase, one
coupled unknown, `pvar = 0`. -/
theorem dt_zero_no_error_signal_witness :
    Returns (computeQpResidual (construct doubleBaseZeroDt doubleDictator doubleMaterials)) ∧
      Returns (computeQpJac (construct doubleBaseZeroDt doubleDictator doubleMaterials) 0) :=
  dt_zero_no_error_signal doubleBaseZeroDt doubleDictator doubleMaterials 1 0 rfl
    { test := ⟨[1], rfl, by decide⟩
      grad_phi := ⟨[⟨Binary64.ofFrac 3 10, -Binary64.ofFrac 1 10, 0⟩], rfl, by decide⟩
      porosity := by decide
      porosity_old := by decide
      dporosity_dvar := ⟨[0], rfl, rfl⟩
      dporosity_dgradvar := ⟨[⟨Binary64.ofFrac 1 10, Binary64.ofFrac 3 10, 0⟩], rfl, rfl⟩
      rock_energy := by decide
      rock_energy_old := by decide
      drock_energy := ⟨[0], rfl, rfl⟩
      density := ⟨[Binary64.ofFrac 3 1], rfl, rfl⟩
      density_old := ⟨[Binary64.ofFrac 3 1], rfl, rfl⟩
      ddensity := ⟨[[0]], rfl, rfl, by simp⟩
      saturation := ⟨[1], rfl, rfl⟩
      saturation_old := ⟨[1], rfl, rfl⟩
      dsaturation := ⟨[[0]], rfl, rfl, by simp⟩
      energy := ⟨[1], rfl, rfl⟩
      energy_old := ⟨[1], rfl, rfl⟩
      denergy := ⟨[[0]], rfl, rfl, by simp⟩ }
    (by decide)

/-- C11 fails at the sample kernel with `_dt = 0`: every read is in range, and both
`computeQpResidual` and `computeQpJac 1` return a value instead of signalling an error. -/
theorem dt_zero_returns_value :
    sampleKernelZeroDt._dt = 0 ∧ Returns (computeQpResidual sampleKernelZeroDt) ∧
      Returns (computeQpJac sampleKernelZeroDt 1) := by
  refine ⟨rfl, ⟨_, computeQpResidual_eq sampleKernelZeroDt 3 (1 / 4) 8 (1 / 2) 4
    (fun p => [2, 3].getD p 0) (fun p => [1 / 2, 1 / 2].getD p 0)
    (fun p => [4, 6].getD p 0) (fun p => [2, 3].getD p 0)
    (fun p => [1 / 2, 1 / 2].getD p 0) (fun p => [2, 4].getD p 0)
    rfl rfl rfl rfl rfl
    (fun p hp => by have h2 : p < 2 := hp; interval_cases p <;> rfl)
    (fun p hp => by have h2 : p < 2 := hp; interval_cases p <;> rfl)
    (fun p hp => by have h2 : p < 2 := hp; interval_cases p <;> rfl)
    (fun p hp => by have h2 : p < 2 := hp; interval_cases p <;> rfl)
    (fun p hp => by have h2 : p < 2 := hp; interval_cases p <;> rfl)
    (fun p hp => by have h2 : p < 2 := hp; interval_cases p <;> rfl)⟩,
    ⟨_, computeQpJac_diag_eq sampleKernelZeroDt 1 3 (1 / 4) 8 2 5
    ⟨0, 1, 2⟩ ⟨2, 0, 1⟩
    (fun p => [2, 3].getD p 0) (fun p => [1 / 2, 1 / 2].getD p 0)
    (fun p => [4, 6].getD p 0) (fun p => [2, 4].getD p 0)
    (fun p => [1, 0].getD p 0) (fun p => [1, 2].getD p 0)
    rfl rfl rfl rfl rfl rfl rfl rfl
    (fun p hp => by have h2 : p < 2 := hp; interval_cases p <;> rfl)
    (fun p hp => by have h2 : p < 2 := hp; interval_cases p <;> rfl)
    (fun p hp => by have h2 : p < 2 := hp; interval_cases p <;> rfl)
    (fun p hp => by have h2 : p < 2 := hp; interval_cases p <;> rfl)
    (fun p hp => by have h2 : p < 2 := hp; interval_cases p <;> rfl)
    (fun p hp => by have h2 : p < 2 := hp; interval_cases p <;> rfl)⟩⟩

/-- C12. Steady state gives a zero residual: for every phase count, `_dt ≠ 0` and test
function value, if every current value read at node `_i` equals its previous-timestep value
(porosity, rock energy and, for every phase `p < N`, density, saturation and energy), then
`computeQpResidual` returns `0`. -/
theorem computeQpResidual_steady_state (k : PorousFlowEnergyTimeDerivative K)
    (test φ e_rock : K) (ρ s u : Nat → K)
    (hdt : k._dt ≠ 0)
    (htest : index2 k._test k._i k._qp = Except.ok test)
    (hφ : index k._porosity k._i = Except.ok φ)
    (he : index k._rock_energy_nodal k._i = Except.ok e_rock)
    (hφo : index k._porosity_old k._i = Except.ok φ)
    (heo : index k._rock_energy_nodal_old k._i = Except.ok e_rock)
    (hρ : ∀ p, p < k._num_phases → phaseAt k._fluid_density k._i p = Except.ok (ρ p))
    (hs : ∀ p, p < k._num_phases →
      phaseAt k._fluid_saturation_nodal k._i p = Except.ok (s p))
    (hu : ∀ p, p < k._num_phases → phaseAt k._energy_nodal k._i p = Except.ok (u p))
    (hρo : ∀ p, p < k._num_phases → phaseAt k._fluid_density_old k._i p = Except.ok (ρ p))
    (hso : ∀ p, p < k._num_phases →
      phaseAt k._fluid_saturation_nodal_old k._i p = Except.ok (s p))
    (huo : ∀ p, p < k._num_phases → phaseAt k._energy_nodal_old k._i p = Except.ok (u p)) :
    computeQpResidual k = Except.ok 0 := by
  have _ := hdt
  rw [computeQpResidual_eq k test φ e_rock φ e_rock ρ s u ρ s u htest hφ he hφo heo hρ hs hu
    hρo hso huo]
  simp

/-- C12 at scenario A: `φ = φ_old = 0.2`, `e_rock = e_rock_old = 5.0`, `N = 0`, `dt = 1.0`,
`test = 1.0`. -/
theorem computeQpResidual_steady_state_witness :
    computeQpResidual scenarioA = Except.ok 0 :=
  computeQpResidual_steady_state scenarioA 1 0.2 5 (fun _ => 0) (fun _ => 0) (fun _ => 0)
    (by simp [scenarioA, construct, scenarioBase]) rfl rfl rfl rfl rfl
    (fun p hp => absurd hp (Nat.not_lt_zero p)) (fun p hp => absurd hp (Nat.not_lt_zero p))
    (fun p hp => absurd hp (Nat.not_lt_zero p)) (fun p hp => absurd hp (Nat.not_lt_zero p))
    (fun p hp => absurd hp (Nat.not_lt_zero p)) (fun p hp => absurd hp (Nat.not_lt_zero p))

/-- C13. Scenario C: with one phase, `φ = φ_old = 0.3`, `e_rock = e_rock_old = 0`,
`ρ = ρ_old = 1000`, `s = s_old = 0.5`, `u = 2000`, `u_old = 1800`, `dt = 2.0` and
`test = 1.0`, the phase loop leaves `energy = 300000` and `energy_old = 270000` and
`computeQpResidual` returns `15000`, in exact arithmetic. -/
theorem computeQpResidual_scenario_C [CharZero K] (k : PorousFlowEnergyTimeDerivative K)
    (hN : k._num_phases = 1)
    (hdt : k._dt = 2)
    (htest : index2 k._test k._i k._qp = Except.ok 1)
    (hφ : index k._porosity k._i = Except.ok 0.3)
    (he : index k._rock_energy_nodal k._i = Except.ok 0)
    (hφo : index k._porosity_old k._i = Except.ok 0.3)
    (heo : index k._rock_energy_nodal_old k._i = Except.ok 0)
    (hρ : phaseAt k._fluid_density k._i 0 = Except.ok 1000)
    (hs : phaseAt k._fluid_saturation_nodal k._i 0 = Except.ok 0.5)
    (hu : phaseAt k._energy_nodal k._i 0 = Except.ok 2000)
    (hρo : phaseAt k._fluid_density_old k._i 0 = Except.ok 1000)
    (hso : phaseAt k._fluid_saturation_nodal_old k._i 0 = Except.ok 0.5)
    (huo : phaseAt k._energy_nodal_old k._i 0 = Except.ok 1800) :
    forLoop (residualPhase k) k._num_phases 0 ((1 - 0.3) * 0, (1 - 0.3) * 0) =
        Except.ok (300000, 270000) ∧
      computeQpResidual k = Except.ok 15000 := by
  have hloop : forLoop (residualPhase k) k._num_phases 0
      (((1 : K) - 0.3) * 0, ((1 : K) - 0.3) * 0) = Except.ok (300000, 270000) := by
    simp only [hN, forLoop, residualPhase, hρ, hs, hu, hρo, hso, huo, hφ, hφo, ok_bind,
      pure_eq_ok]
    norm_num
  refine ⟨hloop, ?_⟩
  simp only [computeQpResidual, hφ, he, hφo, heo, ok_bind, hloop, htest, pure_eq_ok, hdt]
  norm_num

/-- C13 at the kernel the constructor builds for scenario C. -/
theorem computeQpResidual_scenario_C_witness :
    forLoop (residualPhase scenarioC) scenarioC._num_phases 0
        ((1 - 0.3) * 0, (1 - 0.3) * 0) = Except.ok (300000, 270000) ∧
      computeQpResidual scenarioC = Except.ok 15000 :=
  computeQpResidual_scenario_C scenarioC rfl rfl rfl rfl rfl rfl rfl rfl rfl rfl rfl rfl rfl

/-- C14. Scenario B: with no phase, `φ = φ_old = 0.2`, `e_rock = 6.0`, `e_rock_old = 5.0`,
`dt = 1.0` and `test = 1.0`, `computeQpResidual` returns `0.8`, in exact arithmetic. -/
theorem computeQpResidual_scenario_B [CharZero K] (k : PorousFlowEnergyTimeDerivative K)
    (hN : k._num_phases = 0)
    (hdt : k._dt = 1)
    (htest : index2 k._test k._i k._qp = Except.ok 1)
    (hφ : index k._porosity k._i = Except.ok 0.2)
    (he : index k._rock_energy_nodal k._i = Except.ok 6)
    (hφo : index k._porosity_old k._i = Except.ok 0.2)
    (heo : index k._rock_energy_nodal_old k._i = Except.ok 5) :
    computeQpResidual k = Except.ok 0.8 := by
  simp only [computeQpResidual, hφ, he, hφo, heo, hN, forLoop, ok_bind, htest, pure_eq_ok,
    hdt]
  norm_num

/-- C14 at the kernel the constructor builds for scenario B. -/
theorem computeQpResidual_scenario_B_witness :
    computeQpResidual scenarioB = Except.ok 0.8 :=
  computeQpResidual_scenario_B scenarioB rfl rfl rfl rfl rfl rfl rfl

/-- C15. Under the stated preconditions the evaluation is total: if `_dt ≠ 0`, the inputs
are in range for `N` phases and `P` coupled unknowns (see `InRange`) and `pvar < P`, then
for the kernel the constructor builds `computeQpResidual` and `computeQpJac pvar` return a
value: they reach no out-of-range index and no null pointer, and the model has no branch
for a division by zero. -/
theorem computeQp_total (base : TimeKernel K) (dictator : PorousFlowDictator)
    (mp : MaterialData K) (P pvar : Nat)
    (hdt : base._dt ≠ 0)
    (hin : InRange base mp dictator.numPhases P)
    (hpvar : pvar < P) :
    Returns (computeQpResidual (construct base dictator mp)) ∧
      Returns (computeQpJac (construct base dictator mp) pvar) := by
  have _ := hdt
  obtain ⟨trow, htrow, htq⟩ := hin.test
  obtain ⟨grow, hgrow, hgi⟩ := hin.grad_phi
  obtain ⟨dφrow, hdφrow, hdφlen⟩ := hin.dporosity_dvar
  obtain ⟨dgrow, hdgrow, hdglen⟩ := hin.dporosity_dgradvar
  obtain ⟨derow, hderow, hdelen⟩ := hin.drock_energy
  obtain ⟨ρrow, hρrow, hρlen⟩ := hin.density
  obtain ⟨ρorow, hρorow, hρolen⟩ := hin.density_old
  obtain ⟨srow, hsrow, hslen⟩ := hin.saturation
  obtain ⟨sorow, hsorow, hsolen⟩ := hin.saturation_old
  obtain ⟨urow, hurow, hulen⟩ := hin.energy
  obtain ⟨uorow, huorow, huolen⟩ := hin.energy_old
  obtain ⟨dρrow, hdρrow, hdρlen, hdρvec⟩ := hin.ddensity
  obtain ⟨dsrow, hdsrow, hdslen, hdsvec⟩ := hin.dsaturation
  obtain ⟨durow, hdurow, hdulen, hduvec⟩ := hin.denergy
  have htest := index2_getD base._test trow base._i base._qp 0 htrow htq
  have hgp := index2_getD base._grad_phi grow base._j base._i ⟨0, 0, 0⟩ hgrow hgi
  have hφ := index_getD mp.PorousFlow_porosity_nodal base._i 0 hin.porosity
  have hφo := index_getD mp.PorousFlow_porosity_nodal_old base._i 0 hin.porosity_old
  have he := index_getD mp.PorousFlow_matrix_internal_energy_nodal base._i 0 hin.rock_energy
  have heo := index_getD mp.PorousFlow_matrix_internal_energy_nodal_old base._i 0
    hin.rock_energy_old
  have hdφ := index2_getD mp.dPorousFlow_porosity_nodal_dvar dφrow base._i pvar 0 hdφrow
    (by omega)
  have hdg := index2_getD mp.dPorousFlow_porosity_nodal_dgradvar dgrow base._i pvar
    ⟨0, 0, 0⟩ hdgrow (by omega)
  have hde := index2_getD mp.dPorousFlow_matrix_internal_energy_nodal_dvar derow base._i pvar
    0 hderow (by omega)
  have hρ := phaseAt_constructed dictator.numPhases _ ρrow base._i 0 hρrow hρlen
  have hρo := phaseAt_constructed dictator.numPhases _ ρorow base._i 0 hρorow hρolen
  have hs := phaseAt_constructed dictator.numPhases _ srow base._i 0 hsrow hslen
  have hso := phaseAt_constructed dictator.numPhases _ sorow base._i 0 hsorow hsolen
  have hu := phaseAt_constructed dictator.numPhases _ urow base._i 0 hurow hulen
  have huo := phaseAt_constructed dictator.numPhases _ uorow base._i 0 huorow huolen
  have hdρ := dphaseAt_constructed dictator.numPhases P _ dρrow base._i 0 hdρrow hdρlen
    hdρvec pvar hpvar
  have hds := dphaseAt_constructed dictator.numPhases P _ dsrow base._i 0 hdsrow hdslen
    hdsvec pvar hpvar
  have hdu := dphaseAt_constructed dictator.numPhases P _ durow base._i 0 hdurow hdulen
    hduvec pvar hpvar
  refine ⟨⟨_, computeQpResidual_eq (construct base dictator mp) _ _ _ _ _ _ _ _ _ _ _
    htest hφ he hφo heo hρ hs hu hρo hso huo⟩, ?_⟩
  by_cases hij : base._i = base._j
  · exact ⟨_, computeQpJac_diag_eq (construct base dictator mp) pvar _ _ _ _ _ _ _ _ _ _ _
      _ _ hij htest hdg hgp hφ he hdφ hde hρ hs hu hdρ hds hdu⟩
  · exact ⟨_, computeQpJac_offdiag_eq (construct base dictator mp) pvar _ _ _ _ _ _ _ hij
      htest hdg hgp he hρ hs hu⟩

/-- C15 at the sample inputs: two phases, two coupled unknowns, `pvar = 1`. -/
theorem computeQp_total_witness :
    Returns (computeQpResidual (sampleKernel ℚ)) ∧ Returns (computeQpJac (sampleKernel ℚ) 1) :=
  computeQp_total (sampleBase ℚ) sampleDictator (sampleMaterials ℚ) 2 1
    (by simp [sampleBase])
    { test := ⟨[3], rfl, by decide⟩
      grad_phi := ⟨[⟨1, 1, 1⟩, ⟨2, 0, 1⟩], rfl, by decide⟩
      porosity := by decide
      porosity_old := by decide
      dporosity_dvar := ⟨[1, 2], rfl, rfl⟩
      dporosity_dgradvar := ⟨[⟨1, 0, 0⟩, ⟨0, 1, 2⟩], rfl, rfl⟩
      rock_energy := by decide
      rock_energy_old := by decide
      drock_energy := ⟨[3, 5], rfl, rfl⟩
      density := ⟨[2, 3], rfl, rfl⟩
      density_old := ⟨[2, 3], rfl, rfl⟩
      ddensity := ⟨[[1, 2], [3, 4]], rfl, rfl, by simp⟩
      saturation := ⟨[1 / 2, 1 / 2], rfl, rfl⟩
      saturation_old := ⟨[1 / 2, 1 / 2], rfl, rfl⟩
      dsaturation := ⟨[[0, 1], [1, 0]], rfl, rfl, by simp⟩
      energy := ⟨[4, 6], rfl, rfl⟩
      energy_old := ⟨[2, 4], rfl, rfl⟩
      denergy := ⟨[[2, 1], [1, 2]], rfl, rfl, by simp⟩ }
    (by decide)

/-- C16. The Jacobian does not depend on history: replacing the previous-timestep
containers `_porosity_old`, `_rock_energy_nodal_old`, `_fluid_density_old`,
`_fluid_saturation_nodal_old` and `_energy_nodal_old` by arbitrary ones leaves
`computeQpJac pvar` the same, for every `_i`, `_j`, `pvar` and phase count. -/
theorem computeQpJac_ignores_history (k : PorousFlowEnergyTimeDerivative K) (pvar : Nat)
    (porosity_old rock_energy_old : MaterialProperty K)
    (density_old saturation_old energy_old : Option (MaterialProperty (List K))) :
    computeQpJac
      { k with
        _porosity_old := porosity_old
        _rock_energy_nodal_old := rock_energy_old
        _fluid_density_old := density_old
        _fluid_saturation_nodal_old := saturation_old
        _energy_nodal_old := energy_old } pvar = computeQpJac k pvar := rfl

/-- C17. Diagonal and off-diagonal dispatch agree: if the dictator is consistent
(`isPorousFlowVariable v` holds exactly when `notPorousFlowVariable v` does not), then for
the kernel the constructor builds `computeQpJacobian` equals `computeQpOffDiagJacobian` at
the kernel's own variable number, for every input and every pair `(_i, _j)`. -/
theorem computeQpJacobian_eq_computeQpOffDiagJacobian (base : TimeKernel K)
    (dictator : PorousFlowDictator) (mp : MaterialData K)
    (hcons : ∀ v, dictator.isPorousFlowVariable v = true ↔
      ¬ dictator.notPorousFlowVariable v = true) :
    computeQpJacobian (construct base dictator mp) =
      computeQpOffDiagJacobian (construct base dictator mp) base._var_number := by
  have h := hcons base._var_number
  cases h1 : dictator.isPorousFlowVariable base._var_number <;>
    cases h2 : dictator.notPorousFlowVariable base._var_number <;>
    simp [computeQpJacobian, computeQpOffDiagJacobian, construct, h1, h2] <;>
    simp [h1, h2] at h

/-- C17 at the sample kernel, whose own variable number is `1`. -/
theorem computeQpJacobian_eq_computeQpOffDiagJacobian_witness :
    computeQpJacobian (sampleKernel ℚ) = computeQpOffDiagJacobian (sampleKernel ℚ) 1 :=
  computeQpJacobian_eq_computeQpOffDiagJacobian (sampleBase ℚ) sampleDictator
    (sampleMaterials ℚ) (fun v => by simp [sampleDictator])

/-- C18. A coupled unknown on which no field depends contributes nothing: for every pair
`(_i, _j)`, equal or not, every phase count and `_dt ≠ 0`, if the `pvar` entries of
`_dporosity_dvar`, `_dporosity_dgradvar`, `_drock_energy_nodal_dvar` and, for every phase
`p < N`, of `_dfluid_density_dvar`, `_dfluid_saturation_nodal_dvar` and
`_denergy_nodal_dvar` are all zero at node `_i`, then `computeQpJac pvar` returns `0`. -/
theorem computeQpJac_zero_of_no_dependence (k : PorousFlowEnergyTimeDerivative K)
    (pvar : Nat) (test φ e_rock : K) (gp : RealGradient K) (ρ s u : Nat → K)
    (hdt : k._dt ≠ 0)
    (htest : index2 k._test k._i k._qp = Except.ok test)
    (hgp : index2 k._grad_phi k._j k._i = Except.ok gp)
    (hφ : index k._porosity k._i = Except.ok φ)
    (he : index k._rock_energy_nodal k._i = Except.ok e_rock)
    (hρ : ∀ p, p < k._num_phases → phaseAt k._fluid_density k._i p = Except.ok (ρ p))
    (hs : ∀ p, p < k._num_phases →
      phaseAt k._fluid_saturation_nodal k._i p = Except.ok (s p))
    (hu : ∀ p, p < k._num_phases → phaseAt k._energy_nodal k._i p = Except.ok (u p))
    (hdφ : index2 k._dporosity_dvar k._i pvar = Except.ok 0)
    (hdg : index2 k._dporosity_dgradvar k._i pvar = Except.ok ⟨0, 0, 0⟩)
    (hde : index2 k._drock_energy_nodal_dvar k._i pvar = Except.ok 0)
    (hdρ : ∀ p, p < k._num_phases →
      dphaseAt k._dfluid_density_dvar k._i p pvar = Except.ok 0)
    (hds : ∀ p, p < k._num_phases →
      dphaseAt k._dfluid_saturation_nodal_dvar k._i p pvar = Except.ok 0)
    (hdu : ∀ p, p < k._num_phases →
      dphaseAt k._denergy_nodal_dvar k._i p pvar = Except.ok 0) :
    computeQpJac k pvar = Except.ok 0 := by
  have _ := hdt
  by_cases hij : k._i = k._j
  · rw [computeQpJac_diag_eq k pvar test φ e_rock 0 0 ⟨0, 0, 0⟩ gp ρ s u (fun _ => 0)
      (fun _ => 0) (fun _ => 0) hij htest hdg hgp hφ he hdφ hde hρ hs hu hdρ hds hdu]
    simp [RealGradient.dot]
  · rw [computeQpJac_offdiag_eq k pvar test e_rock ⟨0, 0, 0⟩ gp ρ s u hij htest hdg hgp he
      hρ hs hu]
    simp [RealGradient.dot]

/-- C18 at the sample kernel moved to node `0`, where the stored derivatives are zero. -/
theorem computeQpJac_zero_of_no_dependence_witness :
    computeQpJac sampleKernelNode0 1 = Except.ok 0 :=
  computeQpJac_zero_of_no_dependence sampleKernelNode0 1 1 (1 / 2) 7 ⟨1, 0, 0⟩
    (fun p => [1, 1].getD p 0) (fun p => [1, 0].getD p 0) (fun p => [1, 1].getD p 0)
    (by simp [sampleKernelNode0, sampleKernel, construct, sampleBase])
    rfl rfl rfl rfl
    (fun p hp => by have h2 : p < 2 := hp; interval_cases p <;> rfl)
    (fun p hp => by have h2 : p < 2 := hp; interval_cases p <;> rfl)
    (fun p hp => by have h2 : p < 2 := hp; interval_cases p <;> rfl)
    rfl rfl rfl
    (fun p hp => by have h2 : p < 2 := hp; interval_cases p <;> rfl)
    (fun p hp => by have h2 : p < 2 := hp; interval_cases p <;> rfl)
    (fun p hp => by have h2 : p < 2 := hp; interval_cases p <;> rfl)

/-- C19. Phase order is irrelevant. Let every read at node `_i` succeed, and let the nine
phase containers be replaced by containers whose entries at node `_i` are those of the
original ones under one permutation `σ` of the `_num_phases` phases (density, saturation,
phase energy, their previous-timestep values and their derivative vectors alike). Then
`computeQpResidual` and `computeQpJac pvar` return the same values as before the
permutation, in exact arithmetic. -/
theorem computeQp_phase_order_irrelevant (k : PorousFlowEnergyTimeDerivative K) (pvar : Nat)
    (σ : Equiv.Perm (Fin k._num_phases))
    (density density_old saturation saturation_old energy energy_old :
      Option (MaterialProperty (List K)))
    (ddensity dsaturation denergy : Option (MaterialProperty (List (List K))))
    (test φ e_rock φ_old e_rock_old dφ de_rock : K) (dg gp : RealGradient K)
    (ρ s u ρ_old s_old u_old dρ ds du : Fin k._num_phases → K)
    (htest : index2 k._test k._i k._qp = Except.ok test)
    (hdg : index2 k._dporosity_dgradvar k._i pvar = Except.ok dg)
    (hgp : index2 k._grad_phi k._j k._i = Except.ok gp)
    (hφ : index k._porosity k._i = Except.ok φ)
    (he : index k._rock_energy_nodal k._i = Except.ok e_rock)
    (hφo : index k._porosity_old k._i = Except.ok φ_old)
    (heo : index k._rock_energy_nodal_old k._i = Except.ok e_rock_old)
    (hdφ : index2 k._dporosity_dvar k._i pvar = Except.ok dφ)
    (hde : index2 k._drock_energy_nodal_dvar k._i pvar = Except.ok de_rock)
    (hρ : ∀ p : Fin k._num_phases, phaseAt k._fluid_density k._i p = Except.ok (ρ p))
    (hs : ∀ p : Fin k._num_phases,
      phaseAt k._fluid_saturation_nodal k._i p = Except.ok (s p))
    (hu : ∀ p : Fin k._num_phases, phaseAt k._energy_nodal k._i p = Except.ok (u p))
    (hρo : ∀ p : Fin k._num_phases,
      phaseAt k._fluid_density_old k._i p = Except.ok (ρ_old p))
    (hso : ∀ p : Fin k._num_phases,
      phaseAt k._fluid_saturation_nodal_old k._i p = Except.ok (s_old p))
    (huo : ∀ p : Fin k._num_phases,
      phaseAt k._energy_nodal_old k._i p = Except.ok (u_old p))
    (hdρ : ∀ p : Fin k._num_phases,
      dphaseAt k._dfluid_density_dvar k._i p pvar = Except.ok (dρ p))
    (hds : ∀ p : Fin k._num_phases,
      dphaseAt k._dfluid_saturation_nodal_dvar k._i p pvar = Except.ok (ds p))
    (hdu : ∀ p : Fin k._num_phases,
      dphaseAt k._denergy_nodal_dvar k._i p pvar = Except.ok (du p))
    (pρ : ∀ p : Fin k._num_phases,
      phaseAt density k._i p = phaseAt k._fluid_density k._i (σ p))
    (ps : ∀ p : Fin k._num_phases,
      phaseAt saturation k._i p = phaseAt k._fluid_saturation_nodal k._i (σ p))
    (pu : ∀ p : Fin k._num_phases,
      phaseAt energy k._i p = phaseAt k._energy_nodal k._i (σ p))
    (pρo : ∀ p : Fin k._num_phases,
      phaseAt density_old k._i p = phaseAt k._fluid_density_old k._i (σ p))
    (pso : ∀ p : Fin k._num_phases,
      phaseAt saturation_old k._i p = phaseAt k._fluid_saturation_nodal_old k._i (σ p))
    (puo : ∀ p : Fin k._num_phases,
      phaseAt energy_old k._i p = phaseAt k._energy_nodal_old k._i (σ p))
    (pdρ : ∀ p : Fin k._num_phases,
      dphaseAt ddensity k._i p pvar = dphaseAt k._dfluid_density_dvar k._i (σ p) pvar)
    (pds : ∀ p : Fin k._num_phases,
      dphaseAt dsaturation k._i p pvar =
        dphaseAt k._dfluid_saturation_nodal_dvar k._i (σ p) pvar)
    (pdu : ∀ p : Fin k._num_phases,
      dphaseAt denergy k._i p pvar = dphaseAt k._denergy_nodal_dvar k._i (σ p) pvar) :
    let k_perm : PorousFlowEnergyTimeDerivative K :=
      { k with
        _fluid_density := density
        _fluid_density_old := density_old
        _dfluid_density_dvar := ddensity
        _fluid_saturation_nodal := saturation
        _fluid_saturation_nodal_old := saturation_old
        _dfluid_saturation_nodal_dvar := dsaturation
        _energy_nodal := energy
        _energy_nodal_old := energy_old
        _denergy_nodal_dvar := denergy }
    ∃ r J : K,
      computeQpResidual k = Except.ok r ∧ computeQpResidual k_perm = Except.ok r ∧
      computeQpJac k pvar = Except.ok J ∧ computeQpJac k_perm pvar = Except.ok J := by
  intro k_perm
  have hres := computeQpResidual_eq_fin k test φ e_rock φ_old e_rock_old ρ s u ρ_old s_old
    u_old htest hφ he hφo heo hρ hs hu hρo hso huo
  have hjac := computeQpJac_eq_fin k pvar test φ e_rock dφ de_rock dg gp ρ s u dρ ds du
    htest hdg hgp hφ he hdφ hde hρ hs hu hdρ hds hdu
  have hres_perm := computeQpResidual_eq_fin k_perm test φ e_rock φ_old e_rock_old
    (ρ ∘ σ) (s ∘ σ) (u ∘ σ) (ρ_old ∘ σ) (s_old ∘ σ) (u_old ∘ σ) htest hφ he hφo heo
    (fun p => (pρ p).trans (hρ (σ p))) (fun p => (ps p).trans (hs (σ p)))
    (fun p => (pu p).trans (hu (σ p))) (fun p => (pρo p).trans (hρo (σ p)))
    (fun p => (pso p).trans (hso (σ p))) (fun p => (puo p).trans (huo (σ p)))
  have hjac_perm := computeQpJac_eq_fin k_perm pvar test φ e_rock dφ de_rock dg gp
    (ρ ∘ σ) (s ∘ σ) (u ∘ σ) (dρ ∘ σ) (ds ∘ σ) (du ∘ σ) htest hdg hgp hφ he hdφ hde
    (fun p => (pρ p).trans (hρ (σ p))) (fun p => (ps p).trans (hs (σ p)))
    (fun p => (pu p).trans (hu (σ p))) (fun p => (pdρ p).trans (hdρ (σ p)))
    (fun p => (pds p).trans (hds (σ p))) (fun p => (pdu p).trans (hdu (σ p)))
  refine ⟨_, _, hres, ?_, hjac, ?_⟩
  · rw [hres_perm]
    simp only [Function.comp_apply]
    rw [Equiv.sum_comp σ (fun p => φ * ρ p * s p * u p),
      Equiv.sum_comp σ (fun p => φ_old * ρ_old p * s_old p * u_old p)]
  · rw [hjac_perm]
    simp only [Function.comp_apply]
    rw [Equiv.sum_comp σ (fun p => ρ p * s p * u p),
      Equiv.sum_comp σ (fun p => dρ p * s p * u p * φ + ρ p * ds p * u p * φ +
        ρ p * s p * du p * φ + ρ p * s p * u p * dφ),
      Equiv.sum_comp σ (fun p => ρ p * s p * u p * dg.dot gp)]

/-- C19 at the sample kernel and the sample kernel with its two phases swapped,
`pvar = 1`. -/
theorem computeQp_phase_order_irrelevant_witness :
    ∃ r J : ℚ,
      computeQpResidual (sampleKernel ℚ) = Except.ok r ∧
      computeQpResidual sampleKernelSwapped = Except.ok r ∧
      computeQpJac (sampleKernel ℚ) 1 = Except.ok J ∧
      computeQpJac sampleKernelSwapped 1 = Except.ok J :=
  computeQp_phase_order_irrelevant (sampleKernel ℚ) 1 sampleSwap
    (some [[1, 1], [3, 2]]) (some [[1, 1], [3, 2]])
    (some [[0, 1], [1 / 2, 1 / 2]]) (some [[0, 1], [1 / 2, 1 / 2]])
    (some [[1, 1], [6, 4]]) (some [[1, 1], [4, 2]])
    (some [[[0, 0], [0, 0]], [[3, 4], [1, 2]]])
    (some [[[0, 0], [0, 0]], [[1, 0], [0, 1]]])
    (some [[[0, 0], [0, 0]], [[1, 2], [2, 1]]])
    3 (1 / 4) 8 (1 / 2) 4 2 5 ⟨0, 1, 2⟩ ⟨2, 0, 1⟩
    (fun p => [2, 3].getD p 0) (fun p => [1 / 2, 1 / 2].getD p 0)
    (fun p => [4, 6].getD p 0) (fun p => [2, 3].getD p 0)
    (fun p => [1 / 2, 1 / 2].getD p 0) (fun p => [2, 4].getD p 0)
    (fun p => [2, 4].getD p 0) (fun p => [1, 0].getD p 0) (fun p => [1, 2].getD p 0)
    rfl rfl rfl rfl rfl rfl rfl rfl rfl
    (fun p => by fin_cases p <;> rfl) (fun p => by fin_cases p <;> rfl)
    (fun p => by fin_cases p <;> rfl) (fun p => by fin_cases p <;> rfl)
    (fun p => by fin_cases p <;> rfl) (fun p => by fin_cases p <;> rfl)
    (fun p => by fin_cases p <;> rfl) (fun p => by fin_cases p <;> rfl)
    (fun p => by fin_cases p <;> rfl)
    (fun p => by fin_cases p <;> rfl) (fun p => by fin_cases p <;> rfl)
    (fun p => by fin_cases p <;> rfl) (fun p => by fin_cases p <;> rfl)
    (fun p => by fin_cases p <;> rfl) (fun p => by fin_cases p <;> rfl)
    (fun p => by fin_cases p <;> rfl) (fun p => by fin_cases p <;> rfl)
    (fun p => by fin_cases p <;> rfl)

end PorousFlowEnergyTimeDerivative

end PorousFlow
